import Mathlib

/-!
# Cassini uC packet and PLDM declarations

A shallow embedding of the declarations of `lib/casuc/cuc_cxi.h` and
`lib/craypldm/pldm_cxi.h`: enumerations are evaluated by the C rule
(an enumerator without initialiser is its predecessor plus one), packed
structures are ordered lists of members with their sizes in bytes, and
integers read from packet bytes are little-endian, as on the hosts the
headers are compiled for.
-/

set_option autoImplicit false

namespace Cassini

/-! ## C enumerations -/

/-- Initialiser of an enumerator in an enum body: absent, an integer
constant, or the name of an earlier enumerator of the same enum. -/
inductive EnumInit (α : Type) where
  | auto : EnumInit α
  | lit : Int → EnumInit α
  | ref : α → EnumInit α

/-- Value of the enumerator `a` among the already evaluated ones. -/
def enumLookup {α : Type} [DecidableEq α] (env : List (α × Int)) (a : α) : Option Int :=
  (env.find? (fun p => decide (p.1 = a))).map Prod.snd

/-- Evaluate an enum body left to right: `next` is the value an
enumerator without initialiser receives (0 at the start, afterwards the
previous value plus one), `done` the enumerators evaluated so far. -/
def enumEvalFrom {α : Type} [DecidableEq α] :
    List (α × EnumInit α) → Int → List (α × Int) → List (α × Int)
  | [], _, done => done
  | (a, init) :: rest, next, done =>
    let v : Int :=
      match init with
      | EnumInit.auto => next
      | EnumInit.lit n => n
      | EnumInit.ref b => (enumLookup done b).getD 0
    enumEvalFrom rest (v + 1) (done ++ [(a, v)])

/-- All enumerators of an enum body with their values. -/
def enumEval {α : Type} [DecidableEq α] (body : List (α × EnumInit α)) : List (α × Int) :=
  enumEvalFrom body 0 []

/-- Value of one enumerator of an enum body. -/
def enumValue {α : Type} [DecidableEq α] (body : List (α × EnumInit α)) (a : α) : Int :=
  (enumLookup (enumEval body) a).getD 0

/-- The enumerators of an enum body that have the value `v`, in declaration order. -/
def enumNamesOf {α : Type} [DecidableEq α] (body : List (α × EnumInit α)) (v : Int) : List α :=
  ((enumEval body).filter (fun p => decide (p.2 = v))).map Prod.fst

/-! ## Firmware update status (`FWU_STATUS_*`, cuc_cxi.h) -/

/-- Enumerators of the anonymous firmware update status enum. -/
inductive fwu_status where
  | FWU_STATUS_STARTED
  | FWU_STATUS_DOWNLOADING
  | FWU_STATUS_VERIFYING_SIGNATURE
  | FWU_STATUS_VALIDATING_IMAGE
  | FWU_STATUS_FLASHING
  | FWU_STATUS_VERIFYING_FLASH
  | FWU_STATUS_IDLE
  | FWU_STATUS_SUCCESS
  | FWU_STATUS_FAILED
  | FWU_STATUS_FAILED_DOWNLOAD
  | FWU_STATUS_FAILED_BAD_SIGN
  | FWU_STATUS_FAILED_VALIDATION
  | FWU_STATUS_FAILED_FLASH
  | FWU_STATUS_FAILED_VERIFICATION
  | FWU_STATUS_FAILED_INVALID_SLOT
  deriving DecidableEq, Fintype

open fwu_status in
/-- Body of the firmware update status enum, in source order; only
`FWU_STATUS_IDLE` has an initialiser. -/
def fwu_status_body : List (fwu_status × EnumInit fwu_status) :=
  [ (FWU_STATUS_STARTED, EnumInit.auto),
    (FWU_STATUS_DOWNLOADING, EnumInit.auto),
    (FWU_STATUS_VERIFYING_SIGNATURE, EnumInit.auto),
    (FWU_STATUS_VALIDATING_IMAGE, EnumInit.auto),
    (FWU_STATUS_FLASHING, EnumInit.auto),
    (FWU_STATUS_VERIFYING_FLASH, EnumInit.auto),
    (FWU_STATUS_IDLE, EnumInit.lit 0x80),
    (FWU_STATUS_SUCCESS, EnumInit.auto),
    (FWU_STATUS_FAILED, EnumInit.auto),
    (FWU_STATUS_FAILED_DOWNLOAD, EnumInit.auto),
    (FWU_STATUS_FAILED_BAD_SIGN, EnumInit.auto),
    (FWU_STATUS_FAILED_VALIDATION, EnumInit.auto),
    (FWU_STATUS_FAILED_FLASH, EnumInit.auto),
    (FWU_STATUS_FAILED_VERIFICATION, EnumInit.auto),
    (FWU_STATUS_FAILED_INVALID_SLOT, EnumInit.auto) ]

/-- Numeric value of a firmware update status enumerator. -/
def fwu_status.code (s : fwu_status) : Int :=
  enumValue fwu_status_body s

/-- Sub-reasons of a failed firmware update. -/
inductive FwuSubReason where
  | BadDownload
  | BadSignature
  | BadValidation
  | BadFlash
  | BadVerification
  | BadSlot
  deriving DecidableEq, Fintype

/-- Session states a polled status stands for. -/
inductive FwuState where
  | Started
  | Downloading
  | VerifyingSignature
  | ValidatingImage
  | Flashing
  | VerifyingFlash
  | Idle
  | Success
  | Failed (sub : Option FwuSubReason)
  deriving DecidableEq

open fwu_status in
/-- The failure an enumerator reports, by its name and comment in the
header: "download failed", "signature was incorrect", "failure
validating image", "failure during flash", "failure verifying image in
flash", "slot is not valid". `FWU_STATUS_FAILED` ("the firmware update
failed") and the states that are no failure report none. -/
def fwu_status.subReason : fwu_status → Option FwuSubReason
  | FWU_STATUS_FAILED_DOWNLOAD => some FwuSubReason.BadDownload
  | FWU_STATUS_FAILED_BAD_SIGN => some FwuSubReason.BadSignature
  | FWU_STATUS_FAILED_VALIDATION => some FwuSubReason.BadValidation
  | FWU_STATUS_FAILED_FLASH => some FwuSubReason.BadFlash
  | FWU_STATUS_FAILED_VERIFICATION => some FwuSubReason.BadVerification
  | FWU_STATUS_FAILED_INVALID_SLOT => some FwuSubReason.BadSlot
  | _ => none

open fwu_status in
/-- The session state an enumerator names. -/
def fwu_status.state : fwu_status → FwuState
  | FWU_STATUS_STARTED => FwuState.Started
  | FWU_STATUS_DOWNLOADING => FwuState.Downloading
  | FWU_STATUS_VERIFYING_SIGNATURE => FwuState.VerifyingSignature
  | FWU_STATUS_VALIDATING_IMAGE => FwuState.ValidatingImage
  | FWU_STATUS_FLASHING => FwuState.Flashing
  | FWU_STATUS_VERIFYING_FLASH => FwuState.VerifyingFlash
  | FWU_STATUS_IDLE => FwuState.Idle
  | FWU_STATUS_SUCCESS => FwuState.Success
  | s => FwuState.Failed s.subReason

/-- The six progress states. -/
def FwuState.isProgress : FwuState → Bool
  | Started | Downloading | VerifyingSignature | ValidatingImage | Flashing
  | VerifyingFlash => true
  | _ => false

/-- The failed states, whatever their sub-reason. -/
def FwuState.isFailed : FwuState → Bool
  | Failed _ => true
  | _ => false

/-- Terminal states: idle, success and the failed states. -/
def FwuState.isTerminal : FwuState → Bool
  | Idle | Success | Failed _ => true
  | _ => false

/-- The state a status byte of `struct cuc_firmware_update_status_rsp`
stands for: that of the enumerator with this value, if there is one. -/
def fwu_status_decode (status : Int) : Option FwuState :=
  (enumNamesOf fwu_status_body status).head?.map fwu_status.state

/-- The firmware update status enumerators with a value of at least `0x82`. -/
def fwu_failure_codes : List fwu_status :=
  ((enumEval fwu_status_body).filter (fun p => decide (0x82 ≤ p.2))).map Prod.fst

/-- The sub-reason a status byte carries: that of the enumerator with
this value, if there is one and it reports a specific failure. -/
def fwu_status_subreason_of (status : Int) : Option FwuSubReason :=
  (enumNamesOf fwu_status_body status).head?.bind fwu_status.subReason

/-! ## Packed structures -/

/-- C types of the members the two headers declare. A nested packed
struct or union appears as `agg` with its size. -/
inductive CTy where
  | u8
  | s8
  | u16
  | s16
  | u32
  | s32
  | u64
  | float
  | array (elem : CTy) (n : Nat)
  | agg (size : Nat)
  deriving DecidableEq

/-- Size of a C type in bytes (`sizeof`). -/
def CTy.size : CTy → Nat
  | u8 => 1
  | s8 => 1
  | u16 => 2
  | s16 => 2
  | u32 => 4
  | s32 => 4
  | u64 => 8
  | float => 4
  | array elem n => n * elem.size
  | agg size => size

/-- Whether a scalar C type is a signed integer. -/
def CTy.isSigned : CTy → Bool
  | s8 => true
  | s16 => true
  | s32 => true
  | _ => false

/-- A member of a struct or union: its name, its type and, for a
bit-field `u8 x:5`, its width in bits. -/
structure Member where
  name : String
  type : CTy
  bits : Option Nat
  deriving DecidableEq

/-- An ordinary member. -/
def fld (name : String) (type : CTy) : Member :=
  Member.mk name type none

/-- A bit-field member of the given width. -/
def bitfld (name : String) (type : CTy) (width : Nat) : Member :=
  Member.mk name type (some width)

/-- Number of bits a member occupies in a packed struct. -/
def Member.bitSize (m : Member) : Nat :=
  m.bits.getD (8 * m.type.size)

/-- Number of bytes an ordinary member occupies. -/
def Member.size (m : Member) : Nat :=
  m.type.size

/-- Size of a `__packed` struct: its members follow each other without
padding, bit-fields bit by bit. -/
def sizeofPacked (ms : List Member) : Nat :=
  ((ms.map Member.bitSize).sum + 7) / 8

/-- Position in bits of the first member called `name` in a packed struct. -/
def bitOffsetOf : List Member → String → Option Nat
  | [], _ => none
  | m :: rest, name =>
    if m.name = name then some 0
    else (bitOffsetOf rest name).map (fun o => m.bitSize + o)

/-- Byte offset (`offsetof`) of a member that starts on a byte boundary. -/
def offsetOf (ms : List Member) (name : String) : Option Nat :=
  match bitOffsetOf ms name with
  | some o => if o % 8 = 0 then some (o / 8) else none
  | none => none

/-- Size of a union: that of its largest member. -/
def sizeofUnion (ms : List Member) : Nat :=
  (ms.map Member.size).foldl max 0

/-- Type of the member called `name`. -/
def memberType (ms : List Member) (name : String) : Option CTy :=
  (ms.find? (fun m => decide (m.name = name))).map Member.type

/-! ## The command packet (`struct cuc_pkt`, cuc_cxi.h) -/

/-- Number of bytes of the `data` array of a packet. -/
def CUC_DATA_BYTES : Nat := 253

/-- Members of `struct cuc_pkt`. -/
def cuc_pkt_members : List Member :=
  [ fld "cmd" CTy.u8,
    fld "count" CTy.u8,
    fld "type" CTy.u8,
    fld "data" (CTy.array CTy.u8 CUC_DATA_BYTES) ]

/-- Enumerators of the packet type enum. -/
inductive cuc_type where
  | CUC_TYPE_REQ
  | CUC_TYPE_RSP_SUCCESS
  | CUC_TYPE_RSP_ERROR
  | CUC_TYPE_RSP_PLDM
  deriving DecidableEq, Fintype

open cuc_type in
/-- Body of the packet type enum: no enumerator has an initialiser. -/
def cuc_type_body : List (cuc_type × EnumInit cuc_type) :=
  [ (CUC_TYPE_REQ, EnumInit.auto),
    (CUC_TYPE_RSP_SUCCESS, EnumInit.auto),
    (CUC_TYPE_RSP_ERROR, EnumInit.auto),
    (CUC_TYPE_RSP_PLDM, EnumInit.auto) ]

/-- The byte that stands for a packet type in the `type` member. -/
def cuc_type.byte (t : cuc_type) : Nat :=
  (enumValue cuc_type_body t).toNat

/-- The packet type a `type` byte names, if any. -/
def cuc_type_of (b : Nat) : Option cuc_type :=
  (enumNamesOf cuc_type_body (b : Int)).head?

/-- A value of `struct cuc_pkt`; every member is a `u8`, `data` holds
`CUC_DATA_BYTES` of them. -/
structure cuc_pkt where
  cmd : Nat
  count : Nat
  type : Nat
  data : List Nat
  deriving DecidableEq

/-- Fill a packet: the payload goes to the front of `data`, the rest of
the array is zero, and `count` is "the number of bytes to follow
(including type)", stored in a `u8`. A payload longer than the `data`
array has no packet. -/
def cuc_pkt_fill (cmd type : Nat) (payload : List Nat) : Option cuc_pkt :=
  if payload.length ≤ CUC_DATA_BYTES then
    some (cuc_pkt.mk (cmd % 256) ((1 + payload.length) % 256) (type % 256)
      (payload.map (fun b => b % 256) ++ List.replicate (CUC_DATA_BYTES - payload.length) 0))
  else none

/-- The bytes of a packet in memory, member after member. -/
def cuc_pkt.image (p : cuc_pkt) : List Nat :=
  p.cmd :: p.count :: p.type :: p.data

/-- The bytes of a packet that travel: `cmd`, `count` and the `count`
bytes that follow. -/
def cuc_pkt.wire (p : cuc_pkt) : List Nat :=
  p.image.take (2 + p.count)

/-- Ways the envelope of a received byte string can be malformed. -/
inductive DecodeError where
  | Truncated
  | LengthMismatch
  deriving DecidableEq

/-- Modelled from the spec: the envelope decoder of the wire codec, which
the headers do not contain. It reads `cmd`, `count` and `type`; a buffer
shorter than the 3-byte envelope is truncated, a `count` that disagrees
with the bytes that remain after it is a length mismatch; otherwise the
`count - 1` bytes after `type` are the payload. -/
def cuc_pkt_decode (bytes : List Nat) : Except DecodeError (Nat × Nat × List Nat) :=
  match bytes with
  | cmd :: count :: type :: data =>
    if count = 1 + data.length then Except.ok (cmd, type, data)
    else Except.error DecodeError.LengthMismatch
  | _ => Except.error DecodeError.Truncated

/-! ## The PLDM message header (`struct pldm_hdr`, pldm_cxi.h) -/

/-- Members of `struct pldm_hdr`: two bytes of bit-fields, the command
code and the zero-length `payload`. -/
def pldm_hdr_members : List Member :=
  [ bitfld "instance_id" CTy.u8 5,
    bitfld "rsvd" CTy.u8 1,
    bitfld "d" CTy.u8 1,
    bitfld "rq" CTy.u8 1,
    bitfld "pldm_type" CTy.u8 6,
    bitfld "hdr_ver" CTy.u8 2,
    fld "pldm_command_code" CTy.u8,
    fld "payload" (CTy.array CTy.u8 0) ]

/-- A value of `struct pldm_hdr`. -/
structure pldm_hdr where
  instance_id : Nat
  rsvd : Nat
  d : Nat
  rq : Nat
  pldm_type : Nat
  hdr_ver : Nat
  pldm_command_code : Nat
  deriving DecidableEq

/-- Every field of a header is within the width of its bit-field. -/
def pldm_hdr.inRange (h : pldm_hdr) : Prop :=
  h.instance_id < 32 ∧ h.rsvd < 2 ∧ h.d < 2 ∧ h.rq < 2 ∧
    h.pldm_type < 64 ∧ h.hdr_ver < 4 ∧ h.pldm_command_code < 256

/-- Pack bit-fields, given as (width, value), into one integer: the first
field takes the least significant bits, each following one the bits above
it, as the compiler lays bit-fields out on a little-endian host. -/
def packBits : List (Nat × Nat) → Nat
  | [] => 0
  | (w, v) :: rest => v % 2 ^ w + 2 ^ w * packBits rest

/-- Split an integer into bit-fields of the given widths, least
significant first. -/
def unpackBits : List Nat → Nat → List Nat
  | [], _ => []
  | w :: ws, x => x % 2 ^ w :: unpackBits ws (x / 2 ^ w)

/-- The bytes of a header in memory: one byte per group of bit-fields,
then the command code. -/
def pldm_hdr.pack (h : pldm_hdr) : List Nat :=
  [ packBits [(5, h.instance_id), (1, h.rsvd), (1, h.d), (1, h.rq)],
    packBits [(6, h.pldm_type), (2, h.hdr_ver)],
    h.pldm_command_code % 256 ]

/-- The header at the start of a byte string, read back bit-field by
bit-field; a string shorter than the header holds none. -/
def pldm_hdr_unpack : List Nat → Option pldm_hdr
  | b0 :: b1 :: b2 :: _ =>
    match unpackBits [5, 1, 1, 1] (b0 % 256), unpackBits [6, 2] (b1 % 256) with
    | [i, r, d, q], [t, v] => some (pldm_hdr.mk i r d q t v (b2 % 256))
    | _, _ => none
  | _ => none

/-! ## Sensor data sizes and readings (pldm_cxi.h) -/

/-- Enumerators of `enum pldm_data_size`. -/
inductive pldm_data_size where
  | PLDM_DATA_SIZE_UINT8
  | PLDM_DATA_SIZE_SINT8
  | PLDM_DATA_SIZE_UINT16
  | PLDM_DATA_SIZE_SINT16
  | PLDM_DATA_SIZE_UINT32
  | PLDM_DATA_SIZE_SINT32
  deriving DecidableEq, Fintype

open pldm_data_size in
/-- Body of `enum pldm_data_size`: no enumerator has an initialiser. -/
def pldm_data_size_body : List (pldm_data_size × EnumInit pldm_data_size) :=
  [ (PLDM_DATA_SIZE_UINT8, EnumInit.auto),
    (PLDM_DATA_SIZE_SINT8, EnumInit.auto),
    (PLDM_DATA_SIZE_UINT16, EnumInit.auto),
    (PLDM_DATA_SIZE_SINT16, EnumInit.auto),
    (PLDM_DATA_SIZE_UINT32, EnumInit.auto),
    (PLDM_DATA_SIZE_SINT32, EnumInit.auto) ]

/-- Numeric value of a sensor data size enumerator. -/
def pldm_data_size.code (t : pldm_data_size) : Int :=
  enumValue pldm_data_size_body t

/-- The sensor data size a tag byte names, if any. -/
def pldm_data_size_of (tag : Int) : Option pldm_data_size :=
  (enumNamesOf pldm_data_size_body tag).head?

/-- Members of `union sensor_value`. -/
def sensor_value_members : List Member :=
  [ fld "value_SINT8" CTy.s8,
    fld "value_UINT8" CTy.u8,
    fld "value_SINT16" CTy.s16,
    fld "value_UINT16" CTy.u16,
    fld "value_SINT32" CTy.s32,
    fld "value_UINT32" CTy.u32 ]

open pldm_data_size in
/-- The member of `union sensor_value` a sensor data size names. -/
def pldm_data_size.member : pldm_data_size → String
  | PLDM_DATA_SIZE_UINT8 => "value_UINT8"
  | PLDM_DATA_SIZE_SINT8 => "value_SINT8"
  | PLDM_DATA_SIZE_UINT16 => "value_UINT16"
  | PLDM_DATA_SIZE_SINT16 => "value_SINT16"
  | PLDM_DATA_SIZE_UINT32 => "value_UINT32"
  | PLDM_DATA_SIZE_SINT32 => "value_SINT32"

/-- The C type of the reading a sensor data size names. -/
def pldm_data_size.ctype (t : pldm_data_size) : CTy :=
  (memberType sensor_value_members t.member).getD CTy.u8

/-- Number of bytes of the reading a sensor data size names. -/
def pldm_data_size.width (t : pldm_data_size) : Nat :=
  t.ctype.size

/-- The unsigned integer the first `w` bytes of `bytes` hold, least
significant byte first; a missing byte reads as zero. -/
def readLE : Nat → List Nat → Nat
  | 0, _ => 0
  | w + 1, bytes => bytes.headD 0 % 256 + 256 * readLE w bytes.tail

/-- The value of an integer object of type `ty` stored at the start of
`bytes`: unsigned as it stands, signed in two's complement. -/
def CTy.load (ty : CTy) (bytes : List Nat) : Int :=
  let raw : Nat := readLE ty.size bytes
  if ty.isSigned && decide (2 ^ (8 * ty.size - 1) ≤ raw) then
    (raw : Int) - (2 ^ (8 * ty.size) : Nat)
  else (raw : Int)

/-- Least value of an integer type. -/
def CTy.minVal (ty : CTy) : Int :=
  if ty.isSigned then - (2 ^ (8 * ty.size - 1) : Nat) else 0

/-- Greatest value of an integer type. -/
def CTy.maxVal (ty : CTy) : Int :=
  if ty.isSigned then (2 ^ (8 * ty.size - 1) : Nat) - 1 else (2 ^ (8 * ty.size) : Nat) - 1

/-- Members of `struct get_sensor_reading_req`. -/
def get_sensor_reading_req_members : List Member :=
  [ fld "hdr" (CTy.agg (sizeofPacked pldm_hdr_members)),
    fld "sensor_id" CTy.u16,
    fld "rearm_event_status" CTy.u8 ]

/-- Members of `struct get_sensor_reading_rsp`. -/
def get_sensor_reading_rsp_members : List Member :=
  [ fld "hdr" (CTy.agg (sizeofPacked pldm_hdr_members)),
    fld "completion_code" CTy.u8,
    fld "sensor_data_size" CTy.u8,
    fld "sensor_operational_state" CTy.u8,
    fld "sensor_event_message_enable" CTy.u8,
    fld "present_state" CTy.u8,
    fld "previous_state" CTy.u8,
    fld "event_state" CTy.u8,
    fld "present_reading" (CTy.agg (sizeofUnion sensor_value_members)) ]

/-- Enumerators of `enum pldm_completion_code`. -/
inductive pldm_completion_code where
  | PLDM_SUCCESS
  | PLDM_ERROR
  | PLDM_ERROR_INVALID_DATA
  | PLDM_ERROR_INVALID_LENGTH
  | PLDM_ERROR_NOT_READY
  | PLDM_ERROR_UNSUPPORTED_CMD
  | PLDM_ERROR_INVALID_PLDM_TYPE
  | PLDM_ERROR_COMMAND_SPECIFIC_START
  | PLDM_ERROR_COMMAND_SPECIFIC_END
  deriving DecidableEq, Fintype

open pldm_completion_code in
/-- Body of `enum pldm_completion_code`: every enumerator has an initialiser. -/
def pldm_completion_code_body :
    List (pldm_completion_code × EnumInit pldm_completion_code) :=
  [ (PLDM_SUCCESS, EnumInit.lit 0),
    (PLDM_ERROR, EnumInit.lit 1),
    (PLDM_ERROR_INVALID_DATA, EnumInit.lit 2),
    (PLDM_ERROR_INVALID_LENGTH, EnumInit.lit 3),
    (PLDM_ERROR_NOT_READY, EnumInit.lit 4),
    (PLDM_ERROR_UNSUPPORTED_CMD, EnumInit.lit 5),
    (PLDM_ERROR_INVALID_PLDM_TYPE, EnumInit.lit 6),
    (PLDM_ERROR_COMMAND_SPECIFIC_START, EnumInit.lit 0x80),
    (PLDM_ERROR_COMMAND_SPECIFIC_END, EnumInit.lit 0xFF) ]

/-- Ways the decoding of a PLDM response body can fail. -/
inductive PldmDecodeError where
  | UnknownSensorSize
  deriving DecidableEq

/-- Modelled from the spec: the decoder of the `present_reading` of a
GetSensorReading response, which the headers do not contain. The
`sensor_data_size` tag selects the member of `union sensor_value` to read
the storage through; an unrecognised tag is rejected as
`UnknownSensorSize`. -/
def present_reading_decode (tag : Int) (storage : List Nat) : Except PldmDecodeError Int :=
  match pldm_data_size_of tag with
  | some t => Except.ok (t.ctype.load storage)
  | none => Except.error PldmDecodeError.UnknownSensorSize

/-! ## GetPDR and the numeric sensor PDR (pldm_cxi.h) -/

/-- Members of `struct get_pdr_req`. -/
def get_pdr_req_members : List Member :=
  [ fld "hdr" (CTy.agg (sizeofPacked pldm_hdr_members)),
    fld "record_handle" CTy.u32,
    fld "data_transfer_handle" CTy.u32,
    fld "transfer_operation_flag" CTy.u8,
    fld "request_count" CTy.u16,
    fld "record_change_number" CTy.u16 ]

/-- Enumerators of `enum pldm_transfer_op`. -/
inductive pldm_transfer_op where
  | PLDM_XFER_OP_GET_NEXT_PART
  | PLDM_XFER_OP_GET_FIRST_PART
  deriving DecidableEq, Fintype

open pldm_transfer_op in
/-- Body of `enum pldm_transfer_op`: both enumerators have an initialiser. -/
def pldm_transfer_op_body : List (pldm_transfer_op × EnumInit pldm_transfer_op) :=
  [ (PLDM_XFER_OP_GET_NEXT_PART, EnumInit.lit 0),
    (PLDM_XFER_OP_GET_FIRST_PART, EnumInit.lit 1) ]

/-- Members of `struct pdr_hdr`. -/
def pdr_hdr_members : List Member :=
  [ fld "record_handle" CTy.u32,
    fld "pdr_header_version" CTy.u8,
    fld "pdr_type" CTy.u8,
    fld "record_change_number" CTy.u16,
    fld "data_length" CTy.u16,
    fld "data" (CTy.array CTy.u8 0) ]

/-- Members of `struct numeric_sensor_ssd8`. -/
def numeric_sensor_ssd8_members : List Member :=
  [
    fld "hysteresis" CTy.u8,
    fld "supported_thresholds" CTy.u8,
    fld "threshold_and_hysteresis_volatility" CTy.u8,
    fld "state_transition_interval" CTy.float,
    fld "update_interval" CTy.float,
    fld "max_readable" CTy.u8,
    fld "min_readable" CTy.u8,
    fld "range_field_format" CTy.u8,
    fld "range_field_support" CTy.u8,
    fld "nominal_value" CTy.u8,
    fld "normal_max" CTy.u8,
    fld "normal_min" CTy.u8,
    fld "warning_high" CTy.u8,
    fld "warning_low" CTy.u8,
    fld "critical_high" CTy.u8,
    fld "critical_low" CTy.u8,
    fld "fatal_high" CTy.u8,
    fld "fatal_low" CTy.u8 ]

/-- Members of `struct numeric_sensor_ssd16`. -/
def numeric_sensor_ssd16_members : List Member :=
  [
    fld "hysteresis" CTy.u16,
    fld "supported_thresholds" CTy.u8,
    fld "threshold_and_hysteresis_volatility" CTy.u8,
    fld "state_transition_interval" CTy.float,
    fld "update_interval" CTy.float,
    fld "max_readable" CTy.u16,
    fld "min_readable" CTy.u16,
    fld "range_field_format" CTy.u8,
    fld "range_field_support" CTy.u8,
    fld "nominal_value" CTy.u16,
    fld "normal_max" CTy.u16,
    fld "normal_min" CTy.u16,
    fld "warning_high" CTy.u16,
    fld "warning_low" CTy.u16,
    fld "critical_high" CTy.u16,
    fld "critical_low" CTy.u16,
    fld "fatal_high" CTy.u16,
    fld "fatal_low" CTy.u16 ]

/-- Members of `struct numeric_sensor_ssd32`. -/
def numeric_sensor_ssd32_members : List Member :=
  [
    fld "hysteresis" CTy.u32,
    fld "supported_thresholds" CTy.u8,
    fld "threshold_and_hysteresis_volatility" CTy.u8,
    fld "state_transition_interval" CTy.float,
    fld "update_interval" CTy.float,
    fld "max_readable" CTy.u32,
    fld "min_readable" CTy.u32,
    fld "range_field_format" CTy.u8,
    fld "range_field_support" CTy.u8,
    fld "nominal_value" CTy.u32,
    fld "normal_max" CTy.u32,
    fld "normal_min" CTy.u32,
    fld "warning_high" CTy.u32,
    fld "warning_low" CTy.u32,
    fld "critical_high" CTy.u32,
    fld "critical_low" CTy.u32,
    fld "fatal_high" CTy.u32,
    fld "fatal_low" CTy.u32 ]

/-- Members of the anonymous union of `struct numeric_sensor_pdr` that
holds the three tails, called `ssd`. -/
def numeric_sensor_ssd_union : List Member :=
  [ fld "ssd8" (CTy.agg (sizeofPacked numeric_sensor_ssd8_members)),
    fld "ssd16" (CTy.agg (sizeofPacked numeric_sensor_ssd16_members)),
    fld "ssd32" (CTy.agg (sizeofPacked numeric_sensor_ssd32_members)) ]

/-- Members of `struct numeric_sensor_pdr`; the anonymous union of the
entity type bit-fields and `u16 entity_type` is one member of its size. -/
def numeric_sensor_pdr_members : List Member :=
  [ fld "hdr" (CTy.agg (sizeofPacked pdr_hdr_members)),
    fld "pldm_terminus_handle" CTy.u16,
    fld "sensor_id" CTy.u16,
    fld "entity_type" (CTy.agg (sizeofUnion
      [ fld "" (CTy.agg (sizeofPacked
          [ bitfld "entity_type_entity_id" CTy.u16 15,
            bitfld "entity_type_logical" CTy.u16 1 ])),
        fld "entity_type" CTy.u16 ])),
    fld "entity_instance_number" CTy.u16,
    fld "container_id" CTy.u16,
    fld "sensor_init" CTy.u8,
    fld "sensor_auxiliary_names_pdr" CTy.u8,
    fld "base_unit" CTy.u8,
    fld "unit_modifier" CTy.s8,
    fld "rate_unit" CTy.u8,
    fld "base_oem_unit_handle" CTy.u8,
    fld "aux_unit" CTy.u8,
    fld "aux_unit_modifier" CTy.s8,
    fld "aux_rate_unit" CTy.u8,
    fld "rel" CTy.u8,
    fld "aux_oem_unit_handle" CTy.u8,
    fld "is_linear" CTy.u8,
    fld "sensor_data_size" CTy.u8,
    fld "resolution" CTy.float,
    fld "offset" CTy.float,
    fld "accuracy" CTy.u16,
    fld "plus_tolerance" CTy.u8,
    fld "minus_tolerance" CTy.u8,
    fld "ssd" (CTy.agg (sizeofUnion numeric_sensor_ssd_union)) ]

/-- The tail struct whose readings are `w` bytes wide: the header defines
one per size, "not signedness". -/
def numeric_sensor_ssd_of_width : Nat → Option (List Member)
  | 1 => some numeric_sensor_ssd8_members
  | 2 => some numeric_sensor_ssd16_members
  | 4 => some numeric_sensor_ssd32_members
  | _ => none

/-- Modelled from the spec: the choice of the tail of a numeric sensor
PDR, which the headers do not contain. The `sensor_data_size` tag of the
PDR selects the tail struct of the width of the type it names; an
unrecognised tag selects none. -/
def numeric_sensor_ssd_select (tag : Int) : Option (List Member) :=
  (pldm_data_size_of tag).bind (fun t => numeric_sensor_ssd_of_width t.width)

/-- Names of the members of a tail that hold a reading, a threshold or
the hysteresis, all of the type of the sensor reading. -/
def ssd_reading_names : List String :=
  [ "hysteresis", "max_readable", "min_readable", "nominal_value", "normal_max",
    "normal_min", "warning_high", "warning_low", "critical_high", "critical_low",
    "fatal_high", "fatal_low" ]

/-- The members of a tail that are of the type of the sensor reading. -/
def ssdReadingMembers (ms : List Member) : List Member :=
  ms.filter (fun m => decide (m.name ∈ ssd_reading_names))

/-- The members of a tail that are not of the type of the sensor reading. -/
def ssdFixedMembers (ms : List Member) : List Member :=
  ms.filter (fun m => decide (m.name ∉ ssd_reading_names))

/-! ## Firmware slots (`FW_SLOT_*`, cuc_cxi.h) -/

/-- Enumerators of the anonymous firmware slot enum. -/
inductive fw_slot where
  | FW_SLOT_0
  | FW_SLOT_ACTIVE
  | FW_SLOT_1
  | FW_SLOT_RECOVERY
  | FW_SLOT_MAX
  deriving DecidableEq, Fintype

open fw_slot in
/-- Body of the firmware slot enum: `FW_SLOT_ACTIVE` and
`FW_SLOT_RECOVERY` are initialised with the enumerator before them. -/
def fw_slot_body : List (fw_slot × EnumInit fw_slot) :=
  [ (FW_SLOT_0, EnumInit.auto),
    (FW_SLOT_ACTIVE, EnumInit.ref FW_SLOT_0),
    (FW_SLOT_1, EnumInit.auto),
    (FW_SLOT_RECOVERY, EnumInit.ref FW_SLOT_1),
    (FW_SLOT_MAX, EnumInit.auto) ]

/-- Numeric value of a firmware slot enumerator. -/
def fw_slot.code (s : fw_slot) : Int :=
  enumValue fw_slot_body s

/-- Members of `struct cuc_firmware_update_start_req`. -/
def cuc_firmware_update_start_req_members : List Member :=
  [ fld "nic" CTy.u8,
    fld "size" CTy.u32,
    fld "slot" CTy.u8 ]

/-- Modelled from the spec: the local check of the `slot` of a firmware
update start request, which the headers do not contain. The slot must be
one of Active and Recovery; any other value is rejected before
transmission. -/
def fw_slot_allowed (slot : Nat) : Bool :=
  decide ((slot : Int) = fw_slot.FW_SLOT_ACTIVE.code) ||
    decide ((slot : Int) = fw_slot.FW_SLOT_RECOVERY.code)

/-! ## Board types (`CUC_BOARD_TYPE_*`, cuc_cxi.h) -/

/-- Enumerators of the anonymous board type enum. -/
inductive cuc_board_type where
  | CUC_BOARD_TYPE_UNKNOWN
  | CUC_BOARD_TYPE_SAWTOOTH
  | CUC_BOARD_TYPE_BRAZOS
  | CUC_BOARD_TYPE_WASHINGTON
  | CUC_BOARD_TYPE_KENNEBEC
  | CUC_BOARD_TYPE_PANGANI
  | CUC_BOARD_TYPE_SOUHEGAN
  deriving DecidableEq, Fintype

open cuc_board_type in
/-- Body of the board type enum: every enumerator has an initialiser. -/
def cuc_board_type_body : List (cuc_board_type × EnumInit cuc_board_type) :=
  [ (CUC_BOARD_TYPE_UNKNOWN, EnumInit.lit (-1)),
    (CUC_BOARD_TYPE_SAWTOOTH, EnumInit.lit 0),
    (CUC_BOARD_TYPE_BRAZOS, EnumInit.lit 1),
    (CUC_BOARD_TYPE_WASHINGTON, EnumInit.lit 2),
    (CUC_BOARD_TYPE_KENNEBEC, EnumInit.lit 3),
    (CUC_BOARD_TYPE_PANGANI, EnumInit.lit 4),
    (CUC_BOARD_TYPE_SOUHEGAN, EnumInit.lit 5) ]

/-- Numeric value of a board type enumerator. -/
def cuc_board_type.code (b : cuc_board_type) : Int :=
  enumValue cuc_board_type_body b

open cuc_board_type in
/-- The macro `is_cas1_board_type(bt)`. -/
def is_cas1_board_type (bt : Int) : Bool :=
  decide (bt = CUC_BOARD_TYPE_SAWTOOTH.code) ||
    decide (bt = CUC_BOARD_TYPE_BRAZOS.code)

open cuc_board_type in
/-- The macro `is_cas2_board_type(bt)`. -/
def is_cas2_board_type (bt : Int) : Bool :=
  decide (bt = CUC_BOARD_TYPE_WASHINGTON.code) ||
    decide (bt = CUC_BOARD_TYPE_KENNEBEC.code) ||
    decide (bt = CUC_BOARD_TYPE_PANGANI.code) ||
    decide (bt = CUC_BOARD_TYPE_SOUHEGAN.code)

/-- Members of `struct cuc_board_info_rsp`. -/
def cuc_board_info_rsp_members : List Member :=
  [ fld "board_type" CTy.u8,
    fld "board_rev" CTy.u8 ]

/-! ## ATT1 interrupt masks (`ATT1_*`, cuc_cxi.h) -/

/-- Modelled from the spec: the macro `BIT`, which the header uses and
does not define: the mask of one bit, `1 << n`. -/
def BIT (n : Nat) : Nat :=
  1 <<< n

/-- Interrupt mask `ATT1_UC_RESET`. -/
def ATT1_UC_RESET : Nat := BIT 0

/-- Interrupt mask `ATT1_SENSOR_ALERT`. -/
def ATT1_SENSOR_ALERT : Nat := BIT 1

/-- Interrupt mask `ATT1_FAN_FAIL`. -/
def ATT1_FAN_FAIL : Nat := BIT 2

/-- Interrupt mask `ATT1_ASIC_PWR_UP_DONE`. -/
def ATT1_ASIC_PWR_UP_DONE : Nat := BIT 8

/-- Interrupt mask `ATT1_ASIC_PWR_FAIL`. -/
def ATT1_ASIC_PWR_FAIL : Nat := BIT 9

/-- Interrupt mask `ATT1_ASIC_EPO_TEMPERATURE`. -/
def ATT1_ASIC_EPO_TEMPERATURE : Nat := BIT 10

/-- Interrupt mask `ATT1_QSFP_POWER_FAIL`. -/
def ATT1_QSFP_POWER_FAIL : Nat := BIT 16

/-- Interrupt mask `ATT1_QSFP_INSERT`. -/
def ATT1_QSFP_INSERT : Nat := BIT 17

/-- Interrupt mask `ATT1_QSFP_REMOVE`. -/
def ATT1_QSFP_REMOVE : Nat := BIT 18

/-- Interrupt mask `ATT1_QSFP_INT`. -/
def ATT1_QSFP_INT : Nat := BIT 19

/-- Interrupt mask `ATT1_QSFP_EPO_TEMPERATURE`. -/
def ATT1_QSFP_EPO_TEMPERATURE : Nat := BIT 20

/-- Interrupt mask `ATT1_QSFP_BAD_CABLE`. -/
def ATT1_QSFP_BAD_CABLE : Nat := BIT 21

/-- All 32 interrupt bits. -/
def ATT1_ALL_INTERRUPTS : Nat := 0xFFFFFFFF

/-- The masks for uC and board interrupts, in source order. -/
def att1_uc_masks : List Nat :=
  [ATT1_UC_RESET, ATT1_SENSOR_ALERT, ATT1_FAN_FAIL]

/-- The masks for ASIC interrupts, in source order. -/
def att1_asic_masks : List Nat :=
  [ATT1_ASIC_PWR_UP_DONE, ATT1_ASIC_PWR_FAIL, ATT1_ASIC_EPO_TEMPERATURE]

/-- The masks for QSFP interrupts, in source order. -/
def att1_qsfp_masks : List Nat :=
  [ ATT1_QSFP_POWER_FAIL, ATT1_QSFP_INSERT, ATT1_QSFP_REMOVE, ATT1_QSFP_INT,
    ATT1_QSFP_EPO_TEMPERATURE, ATT1_QSFP_BAD_CABLE ]

/-- All defined interrupt masks, in source order. -/
def att1_masks : List Nat :=
  att1_uc_masks ++ att1_asic_masks ++ att1_qsfp_masks

/-- The operator `~` on an unsigned integer of `w` bits. -/
def bitNot (w x : Nat) : Nat :=
  2 ^ w - 1 - x % 2 ^ w

/-- The macro `HOST_CLEARED_ATT1_INTERRUPTS`,
`ATT1_ALL_INTERRUPTS & ~(ATT1_QSFP_INT)`, the complement taken in the
`w` bits of the type of `BIT`. -/
def HOST_CLEARED_ATT1_INTERRUPTS (w : Nat) : Nat :=
  ATT1_ALL_INTERRUPTS &&& bitNot w ATT1_QSFP_INT

/-- The bit positions set in a mask, among the lowest `n`, in ascending order. -/
def bitsSet (n mask : Nat) : List Nat :=
  (List.range n).filter (fun i => mask.testBit i)

/-! ## Firmware targets (`enum casuc_fw_target`, cuc_cxi.h) -/

/-- Enumerators of `enum casuc_fw_target`. -/
inductive casuc_fw_target where
  | FW_UC_APPLICATION
  | FW_UC_BOOTLOADER
  | FW_QSPI_BLOB
  | FW_OPROM
  | FW_CSR1
  | FW_CSR2
  | FW_SRDS
  | FW_ISL68124_SAW
  | FW_ISL68124_BRZ
  | FW_IR38060_QSFP_BRZ
  | FW_IR38060
  | FW_TDA38740_WAS
  | FW_IR38060_WAS
  | FW_IR38063_WAS
  | FW_TDA38740_KEN
  | FW_IR38060_KEN
  | FW_IR38063_KEN
  | FW_RESERVED
  | FW_MFPGA_WAS
  | FW_TDA38740_SOU
  | FW_IR38063_0_SOU
  | FW_IR38063_1_SOU
  | FW_IR38063_2_SOU
  | FW_MFPGA_SOU
  | FW_NUM_ENTRIES
  deriving DecidableEq, Fintype

open casuc_fw_target in
/-- Body of `enum casuc_fw_target`: only `FW_IR38060` has an
initialiser, the enumerator before it. -/
def casuc_fw_target_body : List (casuc_fw_target × EnumInit casuc_fw_target) :=
  [ (FW_UC_APPLICATION, EnumInit.auto),
    (FW_UC_BOOTLOADER, EnumInit.auto),
    (FW_QSPI_BLOB, EnumInit.auto),
    (FW_OPROM, EnumInit.auto),
    (FW_CSR1, EnumInit.auto),
    (FW_CSR2, EnumInit.auto),
    (FW_SRDS, EnumInit.auto),
    (FW_ISL68124_SAW, EnumInit.auto),
    (FW_ISL68124_BRZ, EnumInit.auto),
    (FW_IR38060_QSFP_BRZ, EnumInit.auto),
    (FW_IR38060, EnumInit.ref FW_IR38060_QSFP_BRZ),
    (FW_TDA38740_WAS, EnumInit.auto),
    (FW_IR38060_WAS, EnumInit.auto),
    (FW_IR38063_WAS, EnumInit.auto),
    (FW_TDA38740_KEN, EnumInit.auto),
    (FW_IR38060_KEN, EnumInit.auto),
    (FW_IR38063_KEN, EnumInit.auto),
    (FW_RESERVED, EnumInit.auto),
    (FW_MFPGA_WAS, EnumInit.auto),
    (FW_TDA38740_SOU, EnumInit.auto),
    (FW_IR38063_0_SOU, EnumInit.auto),
    (FW_IR38063_1_SOU, EnumInit.auto),
    (FW_IR38063_2_SOU, EnumInit.auto),
    (FW_MFPGA_SOU, EnumInit.auto),
    (FW_NUM_ENTRIES, EnumInit.auto) ]

/-- Numeric value of a firmware target enumerator. -/
def casuc_fw_target.code (t : casuc_fw_target) : Int :=
  enumValue casuc_fw_target_body t

open casuc_fw_target in
/-- The macro `CAS1_BLOB_FW_TARGETS`, as the list it expands to. -/
def CAS1_BLOB_FW_TARGETS : List casuc_fw_target :=
  [ FW_UC_APPLICATION,
    FW_UC_BOOTLOADER,
    FW_QSPI_BLOB,
    FW_OPROM,
    FW_CSR1,
    FW_CSR2,
    FW_SRDS,
    FW_ISL68124_SAW,
    FW_ISL68124_BRZ,
    FW_IR38060_QSFP_BRZ ]

open casuc_fw_target in
/-- The macro `CAS2_BLOB_FW_TARGETS`, as the list it expands to. -/
def CAS2_BLOB_FW_TARGETS : List casuc_fw_target :=
  [ FW_UC_APPLICATION,
    FW_UC_BOOTLOADER,
    FW_QSPI_BLOB,
    FW_OPROM,
    FW_CSR1,
    FW_CSR2,
    FW_SRDS,
    FW_TDA38740_WAS,
    FW_IR38060_WAS,
    FW_IR38063_WAS,
    FW_TDA38740_KEN,
    FW_IR38060_KEN,
    FW_IR38063_KEN,
    FW_MFPGA_WAS,
    FW_TDA38740_SOU,
    FW_IR38063_0_SOU,
    FW_IR38063_1_SOU,
    FW_IR38063_2_SOU,
    FW_MFPGA_SOU ]

/-- The values of a list of firmware targets. -/
def fwTargetCodes (ts : List casuc_fw_target) : List Int :=
  ts.map casuc_fw_target.code

/-- Members of `struct cuc_get_firmware_version_req`. -/
def cuc_get_firmware_version_req_members : List Member :=
  [ fld "fw_target" CTy.u8,
    fld "nic" CTy.u8,
    fld "from_flash" CTy.u8,
    fld "slot" CTy.u8 ]

/-! ## The other payloads of the uC commands (cuc_cxi.h) -/

/-- Members of `struct cuc_error_rsp_data`; it is not declared packed and
its single `u8` leaves no room for padding. -/
def cuc_error_rsp_data_members : List Member :=
  [ fld "error" CTy.u8 ]

/-- Members of `struct cuc_set_fan_pwm_req_data`. -/
def cuc_set_fan_pwm_req_data_members : List Member :=
  [ fld "percent" CTy.u8 ]

/-- Members of `struct cuc_get_fan_rpm_rsp_data`. -/
def cuc_get_fan_rpm_rsp_data_members : List Member :=
  [ fld "rpm" CTy.u32,
    fld "percent" CTy.u8,
    fld "is_auto" CTy.u8 ]

/-- Members of `struct cuc_mac_req_data`. -/
def cuc_mac_req_data_members : List Member :=
  [ fld "nic" CTy.u8 ]

/-- Members of `struct cuc_mac_rsp_data`. -/
def cuc_mac_rsp_data_members : List Member :=
  [ fld "nic" CTy.u8,
    fld "nic_mac" (CTy.array CTy.u8 6),
    fld "uc_mac" (CTy.array CTy.u8 6) ]

/-- Members of `struct cuc_qsfp_read_req_data`. -/
def cuc_qsfp_read_req_data_members : List Member :=
  [ fld "nic" CTy.u8,
    fld "page" CTy.u8,
    fld "addr" CTy.u8,
    fld "count" CTy.u8 ]

/-- Members of `struct cuc_qsfp_read_rsp_data`. -/
def cuc_qsfp_read_rsp_data_members : List Member :=
  [ fld "data" (CTy.array CTy.u8 0) ]

/-- Members of `struct cuc_qsfp_write_req_data`. -/
def cuc_qsfp_write_req_data_members : List Member :=
  [ fld "nic" CTy.u8,
    fld "page" CTy.u8,
    fld "addr" CTy.u8,
    fld "count" CTy.u8,
    fld "data" (CTy.array CTy.u8 0) ]

/-- Members of `struct cuc_qsfp_reset_req_data`. -/
def cuc_qsfp_reset_req_data_members : List Member :=
  [ fld "nic" CTy.u8 ]

/-- Members of `struct cuc_get_intr_req_data`. -/
def cuc_get_intr_req_data_members : List Member :=
  [ fld "nic" CTy.u8 ]

/-- Members of `struct cuc_get_intr_rsp_data`. -/
def cuc_get_intr_rsp_data_members : List Member :=
  [ fld "isr" CTy.u32,
    fld "ier" CTy.u32 ]

/-- Members of `struct cuc_clear_isr_req_data`. -/
def cuc_clear_isr_req_data_members : List Member :=
  [ fld "nic" CTy.u8,
    fld "isr_clear_bits" CTy.u32 ]

/-- Members of `struct cuc_update_ier_req_data`. -/
def cuc_update_ier_req_data_members : List Member :=
  [ fld "nic" CTy.u8,
    fld "ier_set_bits" CTy.u32,
    fld "ier_clear_bits" CTy.u32 ]

/-- Members of `struct cuc_firmware_update_download_req`. -/
def cuc_firmware_update_download_req_members : List Member :=
  [ fld "data" (CTy.array CTy.u8 0) ]

/-- Members of `struct cuc_firmware_update_status_rsp`. -/
def cuc_firmware_update_status_rsp_members : List Member :=
  [ fld "status" CTy.u8 ]

/-- Members of `struct cuc_set_led_req`. -/
def cuc_set_led_req_members : List Member :=
  [ fld "nic" CTy.u8,
    fld "led" CTy.u8,
    fld "state" CTy.u8 ]

/-- Members of `struct cuc_get_nic_id_rsp`. -/
def cuc_get_nic_id_rsp_members : List Member :=
  [ fld "nic" CTy.u8 ]

/-- Enumerators of `enum cuc_timing_entries`. -/
inductive cuc_timing_entries where
  | TIMING_UC_APPLICATION_STARTED
  | TIMING_UC_PIN_INIT_COMPLETE
  | TIMING_UC_FW_INIT_COMPLETE
  | TIMING_EN_CLKS_UC_ASSERTED
  | TIMING_12V_PG
  | TIMING_PG_CASSINI_ASSERTED
  | TIMING_RST_PON_NIC_N_DEASSERTED
  | TIMING_VID_STABLE_ASSERTED
  | TIMING_PERST_NIC_0_N_DEASSERTED
  | TIMING_PERST_NIC_1_N_DEASSERTED
  | TIMING_JTAG_TRST_N_DEASSERTED
  | TIMING_UC_CASSINI_RDY_NIC_0
  | TIMING_UC_CASSINI_RDY_NIC_1
  | TIMING_PCIE_LINK_UP_NIC_0
  | TIMING_PCIE_LINK_UP_NIC_1
  | TIMING_UPTIME
  | TIMING_NUM_ENTRIES
  deriving DecidableEq, Fintype

open cuc_timing_entries in
/-- Body of `enum cuc_timing_entries`: no enumerator has an initialiser. -/
def cuc_timing_entries_body : List (cuc_timing_entries × EnumInit cuc_timing_entries) :=
  [ (TIMING_UC_APPLICATION_STARTED, EnumInit.auto),
    (TIMING_UC_PIN_INIT_COMPLETE, EnumInit.auto),
    (TIMING_UC_FW_INIT_COMPLETE, EnumInit.auto),
    (TIMING_EN_CLKS_UC_ASSERTED, EnumInit.auto),
    (TIMING_12V_PG, EnumInit.auto),
    (TIMING_PG_CASSINI_ASSERTED, EnumInit.auto),
    (TIMING_RST_PON_NIC_N_DEASSERTED, EnumInit.auto),
    (TIMING_VID_STABLE_ASSERTED, EnumInit.auto),
    (TIMING_PERST_NIC_0_N_DEASSERTED, EnumInit.auto),
    (TIMING_PERST_NIC_1_N_DEASSERTED, EnumInit.auto),
    (TIMING_JTAG_TRST_N_DEASSERTED, EnumInit.auto),
    (TIMING_UC_CASSINI_RDY_NIC_0, EnumInit.auto),
    (TIMING_UC_CASSINI_RDY_NIC_1, EnumInit.auto),
    (TIMING_PCIE_LINK_UP_NIC_0, EnumInit.auto),
    (TIMING_PCIE_LINK_UP_NIC_1, EnumInit.auto),
    (TIMING_UPTIME, EnumInit.auto),
    (TIMING_NUM_ENTRIES, EnumInit.auto) ]

/-- Number of timing entries, the value of `TIMING_NUM_ENTRIES`. -/
def TIMING_NUM_ENTRIES : Nat :=
  (enumValue cuc_timing_entries_body cuc_timing_entries.TIMING_NUM_ENTRIES).toNat

/-- Members of `struct cuc_get_timings_rsp`. -/
def cuc_get_timings_rsp_members : List Member :=
  [ fld "entries_us" (CTy.array CTy.u64 TIMING_NUM_ENTRIES) ]

/-- The payload structs of the uC commands with their members, in source order. -/
def cuc_payload_structs : List (String × List Member) :=
  [ ("cuc_error_rsp_data", cuc_error_rsp_data_members),
    ("cuc_board_info_rsp", cuc_board_info_rsp_members),
    ("cuc_set_fan_pwm_req_data", cuc_set_fan_pwm_req_data_members),
    ("cuc_get_fan_rpm_rsp_data", cuc_get_fan_rpm_rsp_data_members),
    ("cuc_mac_req_data", cuc_mac_req_data_members),
    ("cuc_mac_rsp_data", cuc_mac_rsp_data_members),
    ("cuc_qsfp_read_req_data", cuc_qsfp_read_req_data_members),
    ("cuc_qsfp_read_rsp_data", cuc_qsfp_read_rsp_data_members),
    ("cuc_qsfp_write_req_data", cuc_qsfp_write_req_data_members),
    ("cuc_qsfp_reset_req_data", cuc_qsfp_reset_req_data_members),
    ("cuc_get_intr_req_data", cuc_get_intr_req_data_members),
    ("cuc_get_intr_rsp_data", cuc_get_intr_rsp_data_members),
    ("cuc_clear_isr_req_data", cuc_clear_isr_req_data_members),
    ("cuc_update_ier_req_data", cuc_update_ier_req_data_members),
    ("cuc_firmware_update_start_req", cuc_firmware_update_start_req_members),
    ("cuc_get_firmware_version_req", cuc_get_firmware_version_req_members),
    ("cuc_firmware_update_download_req", cuc_firmware_update_download_req_members),
    ("cuc_firmware_update_status_rsp", cuc_firmware_update_status_rsp_members),
    ("cuc_set_led_req", cuc_set_led_req_members),
    ("cuc_get_nic_id_rsp", cuc_get_nic_id_rsp_members),
    ("cuc_get_timings_rsp", cuc_get_timings_rsp_members) ]

/-! ## The other PLDM structs (pldm_cxi.h) -/

/-- Members of `struct get_pdr_rsp`; `record_data` is a flexible array. -/
def get_pdr_rsp_members : List Member :=
  [ fld "hdr" (CTy.agg (sizeofPacked pldm_hdr_members)),
    fld "completion_code" CTy.u8,
    fld "next_record_handle" CTy.u32,
    fld "next_data_transfer_handle" CTy.u32,
    fld "transfer_flag" CTy.u8,
    fld "response_count" CTy.u16,
    fld "record_data" (CTy.array CTy.u8 0) ]

/-- Greatest number of 16-bit characters of a sensor name. -/
def AUX_NAME_MAX : Nat := 33

/-- Members of `struct aux_name_pdr`. -/
def aux_name_pdr_members : List Member :=
  [ fld "hdr" (CTy.agg (sizeofPacked pdr_hdr_members)),
    fld "pldm_terminus_handle" CTy.u16,
    fld "sensor_id" CTy.u16,
    fld "sensor_count" CTy.u8,
    fld "name_string_count" CTy.u8,
    fld "name_language_tag" (CTy.array CTy.u8 3),
    fld "sensor_name" (CTy.array CTy.u16 AUX_NAME_MAX) ]

/-- Members of `struct pldm_fru_field`; `value` is a flexible array. -/
def pldm_fru_field_members : List Member :=
  [ fld "field_type" CTy.u8,
    fld "length" CTy.u8,
    fld "value" (CTy.array CTy.u8 0) ]

/-- Members of `struct pldm_fru_record`; `field_data` is a flexible array. -/
def pldm_fru_record_members : List Member :=
  [ fld "record_set_id" CTy.u16,
    fld "record_type" CTy.u8,
    fld "num_fields" CTy.u8,
    fld "field_encoding" CTy.u8,
    fld "field_data" (CTy.array CTy.u8 0) ]

/-- The structs of the PLDM messages with their members, in source order. -/
def pldm_structs : List (String × List Member) :=
  [ ("pldm_hdr", pldm_hdr_members),
    ("get_sensor_reading_req", get_sensor_reading_req_members),
    ("get_sensor_reading_rsp", get_sensor_reading_rsp_members),
    ("get_pdr_req", get_pdr_req_members),
    ("get_pdr_rsp", get_pdr_rsp_members),
    ("pdr_hdr", pdr_hdr_members),
    ("numeric_sensor_ssd8", numeric_sensor_ssd8_members),
    ("numeric_sensor_ssd16", numeric_sensor_ssd16_members),
    ("numeric_sensor_ssd32", numeric_sensor_ssd32_members),
    ("numeric_sensor_pdr", numeric_sensor_pdr_members),
    ("aux_name_pdr", aux_name_pdr_members),
    ("pldm_fru_field", pldm_fru_field_members),
    ("pldm_fru_record", pldm_fru_record_members) ]

/-- The PDR formats among the PLDM structs: a PDR header and the data of one record. -/
def pldm_pdr_structs : List (String × List Member) :=
  [ ("numeric_sensor_pdr", numeric_sensor_pdr_members),
    ("aux_name_pdr", aux_name_pdr_members) ]

/-- Sizes of a list of named packed structs. -/
def structSizes (ss : List (String × List Member)) : List (String × Nat) :=
  ss.map (fun s => (s.1, sizeofPacked s.2))

/-! ## Thresholds (`PLDM_THRESHOLD_LIST`, pldm_cxi.h) -/

/-- The macro `PLDM_THRESHOLD_LIST`: the six entries, each an
application of the macro `C` that is defined where the list is used. -/
def PLDM_THRESHOLD_LIST {β : Type} (C : String → Nat → β) : List β :=
  [ C "PLDM_THRESHOLD_UPPER_WARNING" 0,
    C "PLDM_THRESHOLD_UPPER_CRITICAL" 1,
    C "PLDM_THRESHOLD_UPPER_FATAL" 2,
    C "PLDM_THRESHOLD_LOWER_WARNING" 3,
    C "PLDM_THRESHOLD_LOWER_CRITICAL" 4,
    C "PLDM_THRESHOLD_LOWER_FATAL" 5 ]

/-- The macro `C_ENUM(XNAME, XVAL)`: the enumerator `XNAME = XVAL`. -/
def C_ENUM (XNAME : String) (XVAL : Nat) : String × EnumInit String :=
  (XNAME, EnumInit.lit (XVAL : Int))

/-- The macro `C_MASK(XVAL, XBIT)`: the enumerator
`XVAL##_MASK = (1 << XBIT)`. -/
def C_MASK (XVAL : String) (XBIT : Nat) : String × EnumInit String :=
  (XVAL ++ "_MASK", EnumInit.lit ((1 <<< XBIT : Nat) : Int))

/-- Body of `enum pldm_threshold`: the list under `C_ENUM`, then
`PLDM_THRESHOLD_COUNT` without initialiser. -/
def pldm_threshold_body : List (String × EnumInit String) :=
  PLDM_THRESHOLD_LIST C_ENUM ++ [("PLDM_THRESHOLD_COUNT", EnumInit.auto)]

/-- Body of the anonymous enum of the threshold masks: the list under `C_MASK`. -/
def pldm_threshold_mask_body : List (String × EnumInit String) :=
  PLDM_THRESHOLD_LIST C_MASK

/-- The names of the thresholds of the list. -/
def pldm_threshold_names : List String :=
  PLDM_THRESHOLD_LIST (fun name _ => name)

/-- Index of a threshold, its value in `enum pldm_threshold`. -/
def pldm_threshold_index (name : String) : Nat :=
  (enumValue pldm_threshold_body name).toNat

/-- Mask of a threshold, the value of the enumerator `name_MASK`. -/
def pldm_threshold_mask (name : String) : Nat :=
  (enumValue pldm_threshold_mask_body (name ++ "_MASK")).toNat

/-- Number of thresholds, the value of `PLDM_THRESHOLD_COUNT`. -/
def PLDM_THRESHOLD_COUNT : Nat :=
  (enumValue pldm_threshold_body "PLDM_THRESHOLD_COUNT").toNat

/-! ## Firmware update status: theorems -/

open fwu_status in
/-- C1: the six progress states have codes below 0x80, idle is 0x80,
success is 0x81 and no other enumerator has that code or names success,
every remaining enumerator has a code of at least 0x82 and names a failed
state; so `0x80 ≤ code` holds for exactly the terminal states (idle,
success, failed) and for no progress state. Codes are pairwise distinct
and a status byte decodes to the state of its enumerator. -/
theorem fwu_status_threshold_classification :
    (∀ s ∈ [FWU_STATUS_STARTED, FWU_STATUS_DOWNLOADING, FWU_STATUS_VERIFYING_SIGNATURE,
        FWU_STATUS_VALIDATING_IMAGE, FWU_STATUS_FLASHING, FWU_STATUS_VERIFYING_FLASH],
      s.code < 0x80 ∧ s.state.isProgress = true) ∧
    (∀ s : fwu_status, s.state.isProgress = true →
      s ∈ [FWU_STATUS_STARTED, FWU_STATUS_DOWNLOADING, FWU_STATUS_VERIFYING_SIGNATURE,
        FWU_STATUS_VALIDATING_IMAGE, FWU_STATUS_FLASHING, FWU_STATUS_VERIFYING_FLASH]) ∧
    FWU_STATUS_IDLE.code = 0x80 ∧ FWU_STATUS_IDLE.state = FwuState.Idle ∧
    FWU_STATUS_SUCCESS.code = 0x81 ∧ FWU_STATUS_SUCCESS.state = FwuState.Success ∧
    (∀ s : fwu_status, s.code = 0x81 ↔ s = FWU_STATUS_SUCCESS) ∧
    (∀ s : fwu_status, s.state = FwuState.Success ↔ s = FWU_STATUS_SUCCESS) ∧
    (∀ s : fwu_status, s.state.isProgress = false → s ≠ FWU_STATUS_IDLE →
      s ≠ FWU_STATUS_SUCCESS → 0x82 ≤ s.code ∧ s.state.isFailed = true) ∧
    (∀ s : fwu_status, 0x80 ≤ s.code ↔ s.state.isTerminal = true) ∧
    (∀ s : fwu_status, s.state.isProgress = true → ¬ 0x80 ≤ s.code) ∧
    (∀ s : fwu_status, s.state.isTerminal = true ↔ s.state.isProgress = false) ∧
    Function.Injective fwu_status.code ∧
    (∀ s : fwu_status, fwu_status_decode s.code = some s.state) := by
  refine ⟨?_, ?_, ?_, ?_, ?_, ?_, ?_, ?_, ?_, ?_, ?_, ?_, ?_, ?_⟩ <;> decide

open fwu_status in
/-- C2, as stated, fails: the status byte 0x83 is the failed download, not
the bad signature, whose enumerator has another value. -/
theorem fwu_status_0x83_is_not_bad_signature :
    fwu_status_decode 0x83 = some (FwuState.Failed (some FwuSubReason.BadDownload)) ∧
    fwu_status_decode 0x83 ≠ some (FwuState.Failed (some FwuSubReason.BadSignature)) ∧
    FWU_STATUS_FAILED_BAD_SIGN.code ≠ 0x83 := by
  refine ⟨?_, ?_, ?_⟩ <;> decide

open fwu_status in
/-- C2, amended: status byte 0x00 is the non-terminal state Started, 0x80
the terminal state Idle, 0x81 the terminal state Success, and 0x83 the
terminal state Failed with sub-reason BadDownload; the enumerator for a
bad firmware signature has the value 0x84, which decodes to Failed with
sub-reason BadSignature. -/
theorem fwu_status_concrete_decoding :
    fwu_status_decode 0x00 = some FwuState.Started ∧
    FwuState.Started.isTerminal = false ∧
    fwu_status_decode 0x80 = some FwuState.Idle ∧
    FwuState.Idle.isTerminal = true ∧
    fwu_status_decode 0x81 = some FwuState.Success ∧
    FwuState.Success.isTerminal = true ∧
    fwu_status_decode 0x83 = some (FwuState.Failed (some FwuSubReason.BadDownload)) ∧
    (FwuState.Failed (some FwuSubReason.BadDownload)).isTerminal = true ∧
    FWU_STATUS_FAILED_DOWNLOAD.code = 0x83 ∧
    FWU_STATUS_FAILED_BAD_SIGN.code = 0x84 ∧
    fwu_status_decode 0x84 = some (FwuState.Failed (some FwuSubReason.BadSignature)) ∧
    (FwuState.Failed (some FwuSubReason.BadSignature)).isTerminal = true := by
  refine ⟨?_, ?_, ?_, ?_, ?_, ?_, ?_, ?_, ?_, ?_, ?_, ?_⟩ <;> decide

open fwu_status in
/-- C3, as stated, fails: `FWU_STATUS_FAILED` has the code 0x82 and no
sub-reason, and the seven enumerators with a code of at least 0x82 are in
bijection with the six sub-reasons under no correspondence at all. -/
theorem fwu_failure_codes_not_in_bijection :
    (0x82 ≤ FWU_STATUS_FAILED.code ∧ FWU_STATUS_FAILED.subReason = none) ∧
    fwu_failure_codes.length = 7 ∧
    ¬ ∃ f : { s : fwu_status // 0x82 ≤ s.code } → FwuSubReason, Function.Bijective f := by
  refine ⟨by decide, by decide, ?_⟩
  rintro ⟨f, hf⟩
  have hcard := Fintype.card_of_bijective hf
  revert hcard
  decide

open fwu_status in
/-- The values of the firmware update status enumerators. -/
theorem fwu_status_values :
    enumEval fwu_status_body =
      [ (FWU_STATUS_STARTED, 0), (FWU_STATUS_DOWNLOADING, 1),
        (FWU_STATUS_VERIFYING_SIGNATURE, 2), (FWU_STATUS_VALIDATING_IMAGE, 3),
        (FWU_STATUS_FLASHING, 4), (FWU_STATUS_VERIFYING_FLASH, 5),
        (FWU_STATUS_IDLE, 0x80), (FWU_STATUS_SUCCESS, 0x81), (FWU_STATUS_FAILED, 0x82),
        (FWU_STATUS_FAILED_DOWNLOAD, 0x83), (FWU_STATUS_FAILED_BAD_SIGN, 0x84),
        (FWU_STATUS_FAILED_VALIDATION, 0x85), (FWU_STATUS_FAILED_FLASH, 0x86),
        (FWU_STATUS_FAILED_VERIFICATION, 0x87), (FWU_STATUS_FAILED_INVALID_SLOT, 0x88) ] := by
  decide

/-- The status bytes that carry a sub-reason, each with the one it
carries, for every integer. -/
theorem fwu_status_subreason_of_iff (v : Int) (r : FwuSubReason) :
    fwu_status_subreason_of v = some r ↔
      (v, r) ∈ [ ((0x83 : Int), FwuSubReason.BadDownload), (0x84, FwuSubReason.BadSignature),
        (0x85, FwuSubReason.BadValidation), (0x86, FwuSubReason.BadFlash),
        (0x87, FwuSubReason.BadVerification), (0x88, FwuSubReason.BadSlot) ] := by
  by_cases hv : v ∈ [(0 : Int), 1, 2, 3, 4, 5, 0x80, 0x81, 0x82, 0x83, 0x84, 0x85, 0x86,
      0x87, 0x88]
  · revert r
    simp only [List.mem_cons, List.mem_singleton, List.not_mem_nil, or_false] at hv
    rcases hv with h | h | h | h | h | h | h | h | h | h | h | h | h | h | h <;>
      subst h <;> decide
  · have hnone : fwu_status_subreason_of v = none := by
      simp only [List.mem_cons, List.mem_singleton, List.not_mem_nil, or_false,
        not_or] at hv
      obtain ⟨h0, h1, h2, h3, h4, h5, h6, h7, h8, h9, h10, h11, h12, h13, h14⟩ := hv
      simp [fwu_status_subreason_of, enumNamesOf, fwu_status_values, List.filter,
        Ne.symm h0, Ne.symm h1, Ne.symm h2, Ne.symm h3, Ne.symm h4, Ne.symm h5,
        Ne.symm h6, Ne.symm h7, Ne.symm h8, Ne.symm h9, Ne.symm h10, Ne.symm h11,
        Ne.symm h12, Ne.symm h13, Ne.symm h14]
    rw [hnone]
    constructor
    · intro h
      cases h
    · intro h
      exfalso
      apply hv
      simp only [List.mem_cons, List.mem_singleton, List.not_mem_nil, or_false,
        Prod.mk.injEq] at h ⊢
      rcases h with h | h | h | h | h | h <;> simp [h.1]

open fwu_status in
/-- C3, amended: the status codes of at least 0x82 the enum defines are
0x82..0x88, pairwise distinct; those of at least 0x83 are exactly the six
codes 0x83..0x88 and each carries exactly one sub-reason: 0x83
BadDownload, 0x84 BadSignature, 0x85 BadValidation, 0x86 BadFlash, 0x87
BadVerification, 0x88 BadSlot; this is a bijection between these six codes
and the six sub-reasons, and no other integer carries a sub-reason; the
code 0x82 of the generic `FWU_STATUS_FAILED` is a failure code that
carries none. All of them name a failed state with what they carry. -/
theorem fwu_failure_subreason_bijection :
    (∀ s : fwu_status, 0x83 ≤ s.code ↔ s.subReason.isSome = true) ∧
    (∀ r : FwuSubReason, ∃ s : fwu_status, s.subReason = some r ∧
      ∀ s2 : fwu_status, s2.subReason = some r → s2 = s) ∧
    (∀ s : fwu_status, 0x82 ≤ s.code → s.subReason = none → s = FWU_STATUS_FAILED) ∧
    FWU_STATUS_FAILED.code = 0x82 ∧
    (∀ s : fwu_status, 0x82 ≤ s.code ↔ s.state = FwuState.Failed s.subReason) ∧
    fwu_failure_codes.map fwu_status.subReason =
      [ none, some FwuSubReason.BadDownload, some FwuSubReason.BadSignature,
        some FwuSubReason.BadValidation, some FwuSubReason.BadFlash,
        some FwuSubReason.BadVerification, some FwuSubReason.BadSlot ] ∧
    fwu_failure_codes.map (fun s => (s, s.code)) =
      [ (FWU_STATUS_FAILED, 0x82), (FWU_STATUS_FAILED_DOWNLOAD, 0x83),
        (FWU_STATUS_FAILED_BAD_SIGN, 0x84), (FWU_STATUS_FAILED_VALIDATION, 0x85),
        (FWU_STATUS_FAILED_FLASH, 0x86), (FWU_STATUS_FAILED_VERIFICATION, 0x87),
        (FWU_STATUS_FAILED_INVALID_SLOT, 0x88) ] ∧
    (∀ s : fwu_status, 0x82 ≤ s.code ↔ s ∈ fwu_failure_codes) ∧
    Function.Injective fwu_status.code ∧
    (fwu_failure_codes.map fwu_status.code).Nodup ∧
    (∀ s : fwu_status, 0x83 ≤ s.code ↔
      s.code ∈ [(0x83 : Int), 0x84, 0x85, 0x86, 0x87, 0x88]) ∧
    (∀ v ∈ [(0x83 : Int), 0x84, 0x85, 0x86, 0x87, 0x88], ∃ s : fwu_status, s.code = v) ∧
    (∀ s : fwu_status, fwu_status_subreason_of s.code = s.subReason) ∧
    [(0x82 : Int), 0x83, 0x84, 0x85, 0x86, 0x87, 0x88].map fwu_status_subreason_of =
      [ none, some FwuSubReason.BadDownload, some FwuSubReason.BadSignature,
        some FwuSubReason.BadValidation, some FwuSubReason.BadFlash,
        some FwuSubReason.BadVerification, some FwuSubReason.BadSlot ] ∧
    (∀ (v : Int) (r : FwuSubReason), fwu_status_subreason_of v = some r ↔
      (v, r) ∈ [ ((0x83 : Int), FwuSubReason.BadDownload), (0x84, FwuSubReason.BadSignature),
        (0x85, FwuSubReason.BadValidation), (0x86, FwuSubReason.BadFlash),
        (0x87, FwuSubReason.BadVerification), (0x88, FwuSubReason.BadSlot) ]) ∧
    (∀ r : FwuSubReason, ∃ v : Int, (0x83 ≤ v ∧ v ≤ 0x88) ∧
      fwu_status_subreason_of v = some r ∧
      ∀ v2 : Int, fwu_status_subreason_of v2 = some r → v2 = v) := by
  refine ⟨by decide, by decide, by decide, by decide, by decide, by decide, by decide,
    by decide, by decide, by decide, by decide, by decide, by decide, by decide,
    fwu_status_subreason_of_iff, ?_⟩
  intro r
  cases r
  · refine ⟨0x83, by decide, by decide, fun v2 h => ?_⟩
    have := (fwu_status_subreason_of_iff v2 _).mp h
    simpa using this
  · refine ⟨0x84, by decide, by decide, fun v2 h => ?_⟩
    have := (fwu_status_subreason_of_iff v2 _).mp h
    simpa using this
  · refine ⟨0x85, by decide, by decide, fun v2 h => ?_⟩
    have := (fwu_status_subreason_of_iff v2 _).mp h
    simpa using this
  · refine ⟨0x86, by decide, by decide, fun v2 h => ?_⟩
    have := (fwu_status_subreason_of_iff v2 _).mp h
    simpa using this
  · refine ⟨0x87, by decide, by decide, fun v2 h => ?_⟩
    have := (fwu_status_subreason_of_iff v2 _).mp h
    simpa using this
  · refine ⟨0x88, by decide, by decide, fun v2 h => ?_⟩
    have := (fwu_status_subreason_of_iff v2 _).mp h
    simpa using this

/-! ## The command packet: theorems -/

/-- A payload that fits the `data` array has a packet, with these members. -/
theorem cuc_pkt_fill_of_le (cmd type : Nat) (payload : List Nat)
    (h : payload.length ≤ CUC_DATA_BYTES) :
    cuc_pkt_fill cmd type payload =
      some (cuc_pkt.mk (cmd % 256) ((1 + payload.length) % 256) (type % 256)
        (payload.map (fun b => b % 256) ++
          List.replicate (CUC_DATA_BYTES - payload.length) 0)) := by
  simp [cuc_pkt_fill, h]

/-- A payload longer than the `data` array has no packet. -/
theorem cuc_pkt_fill_of_gt (cmd type : Nat) (payload : List Nat)
    (h : CUC_DATA_BYTES < payload.length) :
    cuc_pkt_fill cmd type payload = none := by
  simp [cuc_pkt_fill, Nat.not_le.mpr h]

/-- Reducing bytes modulo 256 leaves a list of bytes as it is. -/
theorem map_mod_256_of_bytes (payload : List Nat) (h : ∀ b ∈ payload, b < 256) :
    payload.map (fun b => b % 256) = payload := by
  induction payload with
  | nil => rfl
  | cons b rest ih =>
    have hb : b < 256 := h b (List.mem_cons_self b rest)
    have hrest : ∀ c ∈ rest, c < 256 := fun c hc => h c (List.mem_cons_of_mem b hc)
    simp [ih hrest, Nat.mod_eq_of_lt hb]

/-- The bytes of a filled packet that travel: the three envelope bytes
and the payload, without the unused rest of `data`. -/
theorem cuc_pkt_wire_of_fill (cmd type : Nat) (payload : List Nat)
    (h : payload.length ≤ CUC_DATA_BYTES) :
    (cuc_pkt.mk (cmd % 256) ((1 + payload.length) % 256) (type % 256)
        (payload.map (fun b => b % 256) ++
          List.replicate (CUC_DATA_BYTES - payload.length) 0)).wire =
      cmd % 256 :: (1 + payload.length) :: type % 256 :: payload.map (fun b => b % 256) := by
  have h253 : payload.length ≤ 253 := h
  have hc : (1 + payload.length) % 256 = 1 + payload.length := Nat.mod_eq_of_lt (by omega)
  have h2 : 2 + (1 + payload.length) = payload.length + 1 + 1 + 1 := by omega
  simp only [cuc_pkt.wire, cuc_pkt.image, hc, h2, List.take_succ_cons]
  congr 3
  rw [List.take_append_of_le_length (by simp)]
  exact List.take_of_length_le (by simp)

/-- The memory image of a filled packet has the size of the struct. -/
theorem cuc_pkt_image_length_of_fill (cmd type : Nat) (payload : List Nat)
    (h : payload.length ≤ CUC_DATA_BYTES) :
    (cuc_pkt.mk (cmd % 256) ((1 + payload.length) % 256) (type % 256)
        (payload.map (fun b => b % 256) ++
          List.replicate (CUC_DATA_BYTES - payload.length) 0)).image.length = 256 := by
  have h253 : payload.length ≤ 253 := h
  simp [cuc_pkt.image, CUC_DATA_BYTES]
  omega

/-- What filling a packet with a payload that fits gives: the count, the
bytes that travel and the length of the packet in memory. -/
theorem cuc_pkt_fill_spec (cmd type : Nat) (payload : List Nat)
    (h : payload.length ≤ CUC_DATA_BYTES) :
    ∃ p : cuc_pkt, cuc_pkt_fill cmd type payload = some p ∧
      p.count = 1 + payload.length ∧
      p.wire = cmd % 256 :: (1 + payload.length) :: type % 256 ::
        payload.map (fun b => b % 256) ∧
      p.wire.length = 3 + payload.length ∧
      p.image.length = 256 := by
  have h253 : payload.length ≤ 253 := h
  refine ⟨_, cuc_pkt_fill_of_le cmd type payload h, Nat.mod_eq_of_lt (by omega),
    cuc_pkt_wire_of_fill cmd type payload h, ?_,
    cuc_pkt_image_length_of_fill cmd type payload h⟩
  rw [cuc_pkt_wire_of_fill cmd type payload h]
  simp only [List.length_cons, List.length_map]
  omega

/-- C4: for a payload of n ≤ 253 = CUC_DATA_BYTES bytes the packet
exists, its count member is 1 + n, at most 254 and so unchanged by the
8-bit store, 3 + n = 2 + count bytes travel, and the packed struct has
cmd, count, type and data at offsets 0, 1, 2, 3 and is 256 bytes, the
length of the packet in memory. -/
theorem cuc_pkt_length_invariant (cmd type : Nat) (payload : List Nat)
    (hn : payload.length ≤ 253) :
    CUC_DATA_BYTES = 253 ∧
    ∃ p : cuc_pkt, cuc_pkt_fill cmd type payload = some p ∧
      p.count = 1 + payload.length ∧ p.count ≤ 254 ∧
      (1 + payload.length) % 2 ^ 8 = 1 + payload.length ∧
      p.wire.length = 3 + payload.length ∧ p.wire.length = 2 + p.count ∧
      offsetOf cuc_pkt_members "cmd" = some 0 ∧
      offsetOf cuc_pkt_members "count" = some 1 ∧
      offsetOf cuc_pkt_members "type" = some 2 ∧
      offsetOf cuc_pkt_members "data" = some 3 ∧
      cuc_pkt_members.map Member.name = ["cmd", "count", "type", "data"] ∧
      memberType cuc_pkt_members "data" = some (CTy.array CTy.u8 253) ∧
      sizeofPacked cuc_pkt_members = 256 ∧
      p.image.length = sizeofPacked cuc_pkt_members := by
  have hle : payload.length ≤ CUC_DATA_BYTES := hn
  have hc : (1 + payload.length) % 256 = 1 + payload.length := Nat.mod_eq_of_lt (by omega)
  refine ⟨rfl, _, cuc_pkt_fill_of_le cmd type payload hle, hc, ?_, ?_, ?_, ?_,
    by decide, by decide, by decide, by decide, by decide, by decide, by decide, ?_⟩
  · show (1 + payload.length) % 256 ≤ 254
    omega
  · simpa using hc
  · rw [cuc_pkt_wire_of_fill cmd type payload hle]
    simp
    omega
  · rw [cuc_pkt_wire_of_fill cmd type payload hle]
    simp
    omega
  · rw [cuc_pkt_image_length_of_fill cmd type payload hle]
    decide

/-- C4 at the payload 1, 2, 3 of a PLDM command: count is 4 and six bytes travel. -/
theorem cuc_pkt_length_invariant_witness :
    [1, 2, 3].length ≤ 253 ∧
    ∃ p : cuc_pkt, cuc_pkt_fill 39 0 [1, 2, 3] = some p ∧ p.count = 4 ∧
      p.wire.length = 6 :=
  ⟨by decide,
    match cuc_pkt_length_invariant 39 0 [1, 2, 3] (by decide) with
    | ⟨_, p, hp, hcount, _, _, hwire, _⟩ => ⟨p, hp, hcount, hwire⟩⟩

/-- C5, as stated, fails: a payload of 253 bytes has a packet; its count
is 254 and the 256 bytes that travel are the whole struct. -/
theorem cuc_pkt_payload_253_fits :
    (List.replicate 253 0).length = 253 ∧
    ∃ p : cuc_pkt, cuc_pkt_fill 0 0 (List.replicate 253 0) = some p ∧
      p.count = 254 ∧ p.wire.length = 256 := by
  have hlen : (List.replicate 253 0).length = 253 := List.length_replicate 253 0
  have hle : (List.replicate 253 0).length ≤ CUC_DATA_BYTES := by rw [hlen]; decide
  obtain ⟨p, hp, hcount, _, hwire, _⟩ := cuc_pkt_fill_spec 0 0 _ hle
  rw [hlen] at hcount hwire
  exact ⟨hlen, p, hp, hcount, hwire⟩

/-- C5, amended: a payload has a packet exactly when it is at most
253 = CUC_DATA_BYTES bytes long, the size of the data array that follows
the type byte; so payloads of 252 and of 253 bytes fit, the latter with
count 254 and the whole struct travelling, and a payload of 254 bytes
does not. -/
theorem cuc_pkt_payload_boundary (cmd type : Nat) (payload : List Nat) :
    ((cuc_pkt_fill cmd type payload).isSome = true ↔ payload.length ≤ 253) ∧
    (payload.length = 252 → (cuc_pkt_fill cmd type payload).isSome = true) ∧
    (payload.length = 253 →
      ∃ p : cuc_pkt, cuc_pkt_fill cmd type payload = some p ∧ p.count = 254 ∧
        p.wire.length = sizeofPacked cuc_pkt_members) ∧
    (payload.length = 254 → cuc_pkt_fill cmd type payload = none) ∧
    memberType cuc_pkt_members "data" = some (CTy.array CTy.u8 253) ∧
    offsetOf cuc_pkt_members "type" = some 2 ∧
    offsetOf cuc_pkt_members "data" = some 3 := by
  have hiff : (cuc_pkt_fill cmd type payload).isSome = true ↔ payload.length ≤ 253 := by
    by_cases h : payload.length ≤ CUC_DATA_BYTES
    · rw [cuc_pkt_fill_of_le cmd type payload h]
      simpa [CUC_DATA_BYTES] using h
    · have hgt : CUC_DATA_BYTES < payload.length := Nat.lt_of_not_le h
      rw [cuc_pkt_fill_of_gt cmd type payload hgt]
      simpa [CUC_DATA_BYTES] using hgt
  refine ⟨hiff, fun h => hiff.mpr (by omega), ?_, ?_, by decide, by decide, by decide⟩
  · intro h
    have hle : payload.length ≤ CUC_DATA_BYTES := by rw [h]; decide
    obtain ⟨p, hp, hcount, _, hwire, _⟩ := cuc_pkt_fill_spec cmd type payload hle
    have hs : sizeofPacked cuc_pkt_members = 256 := by decide
    rw [h] at hcount hwire
    exact ⟨p, hp, hcount, by rw [hs]; exact hwire⟩
  · intro h
    exact cuc_pkt_fill_of_gt cmd type payload (by rw [h]; decide)

/-- C5 amended, at a payload of 254 zero bytes: it has no packet. -/
theorem cuc_pkt_payload_boundary_witness :
    (List.replicate 254 0).length = 254 ∧ cuc_pkt_fill 39 0 (List.replicate 254 0) = none :=
  ⟨List.length_replicate 254 0,
    (cuc_pkt_payload_boundary 39 0 (List.replicate 254 0)).2.2.2.1
      (List.length_replicate 254 0)⟩

/-- C6: for every command byte, each of the four packet types and every
payload of at most 252 bytes, the packet exists, the bytes that travel
are cmd, count = 1 + length, type and the payload, and decoding them
gives back the command, the type byte, which names the packet type, and
the payload. -/
theorem cuc_pkt_envelope_round_trip (cmd : Nat) (t : cuc_type) (payload : List Nat)
    (hcmd : cmd < 256) (hbytes : ∀ b ∈ payload, b < 256) (hlen : payload.length ≤ 252) :
    ∃ p : cuc_pkt, cuc_pkt_fill cmd t.byte payload = some p ∧
      p.count = 1 + payload.length ∧
      p.wire = cmd :: (1 + payload.length) :: t.byte :: payload ∧
      cuc_pkt_decode p.wire = Except.ok (cmd, t.byte, payload) ∧
      cuc_type_of t.byte = some t := by
  have hle : payload.length ≤ CUC_DATA_BYTES := by
    show payload.length ≤ 253
    omega
  have ht : t.byte % 256 = t.byte := by cases t <;> decide
  obtain ⟨p, hp, hcount, hwire, _, _⟩ := cuc_pkt_fill_spec cmd t.byte payload hle
  rw [map_mod_256_of_bytes payload hbytes, Nat.mod_eq_of_lt hcmd, ht] at hwire
  refine ⟨p, hp, hcount, hwire, ?_, ?_⟩
  · rw [hwire]
    simp [cuc_pkt_decode]
  · cases t <;> decide

/-- C6 at a PLDM response carrying the bytes 0x12, 0x34. -/
theorem cuc_pkt_envelope_round_trip_witness :
    (39 < 256 ∧ (∀ b ∈ [0x12, 0x34], b < 256) ∧ [0x12, 0x34].length ≤ 252) ∧
    ∃ p : cuc_pkt, cuc_pkt_fill 39 3 [0x12, 0x34] = some p ∧
      p.count = 3 ∧
      p.wire = [39, 3, 3, 0x12, 0x34] ∧
      cuc_pkt_decode p.wire = Except.ok (39, 3, [0x12, 0x34]) ∧
      cuc_type_of 3 = some cuc_type.CUC_TYPE_RSP_PLDM :=
  ⟨⟨by decide, by decide, by decide⟩,
    cuc_pkt_envelope_round_trip 39 cuc_type.CUC_TYPE_RSP_PLDM [0x12, 0x34]
      (by decide) (by decide) (by decide)⟩

/-! ## The PLDM header: theorems -/

/-- The two bit-field bytes of an in-range header, as sums. -/
theorem pldm_hdr_pack_of_inRange (h : pldm_hdr) (hr : h.inRange) :
    h.pack = [ h.instance_id + 32 * h.rsvd + 64 * h.d + 128 * h.rq,
               h.pldm_type + 64 * h.hdr_ver,
               h.pldm_command_code ] := by
  obtain ⟨h1, h2, h3, h4, h5, h6, h7⟩ := hr
  simp only [pldm_hdr.pack, packBits]
  norm_num
  refine ⟨?_, ?_, ?_⟩ <;> omega

/-- Reading an in-range header back from its bytes, whatever follows them. -/
theorem pldm_hdr_unpack_pack (h : pldm_hdr) (hr : h.inRange) (payload : List Nat) :
    pldm_hdr_unpack (h.pack ++ payload) = some h := by
  rw [pldm_hdr_pack_of_inRange h hr]
  obtain ⟨h1, h2, h3, h4, h5, h6, h7⟩ := hr
  cases h with
  | mk i r d q t v c =>
    simp only [pldm_hdr_unpack, unpackBits, List.cons_append, List.nil_append] at *
    norm_num
    refine ⟨?_, ?_, ?_, ?_, ?_, ?_, ?_⟩ <;> omega

/-- The header three bytes hold is in range and packs to these bytes. -/
theorem pldm_hdr_pack_unpack (b0 b1 b2 : Nat) (payload : List Nat)
    (h0 : b0 < 256) (h1 : b1 < 256) (h2 : b2 < 256) :
    ∃ h : pldm_hdr, pldm_hdr_unpack (b0 :: b1 :: b2 :: payload) = some h ∧
      h.inRange ∧ h.pack = [b0, b1, b2] := by
  refine ⟨_, rfl, ?_, ?_⟩
  · simp only [pldm_hdr.inRange]
    norm_num
    refine ⟨?_, ?_, ?_, ?_, ?_, ?_, ?_⟩ <;> omega
  · simp only [pldm_hdr.pack, packBits]
    norm_num
    refine ⟨?_, ?_, ?_⟩ <;> omega

/-- C7: the header is 3 bytes; in memory byte 0 is
instance_id + 32*rsvd + 64*d + 128*rq, byte 1 is pldm_type + 64*hdr_ver
and byte 2 the command code, for fields within their widths (5, 1, 1, 1
bits and 6, 2 bits, each group filling one byte); unpacking the bytes of
an in-range header gives the header back, and every three bytes unpack
to an in-range header that packs to the same three bytes. -/
theorem pldm_hdr_bit_packing :
    sizeofPacked pldm_hdr_members = 3 ∧
    pldm_hdr_members.filterMap Member.bits = [5, 1, 1, 1, 6, 2] ∧
    ((pldm_hdr_members.take 4).map Member.bitSize).sum = 8 ∧
    (((pldm_hdr_members.drop 4).take 2).map Member.bitSize).sum = 8 ∧
    bitOffsetOf pldm_hdr_members "pldm_type" = some 8 ∧
    offsetOf pldm_hdr_members "pldm_command_code" = some 2 ∧
    (∀ h : pldm_hdr, h.pack.length = 3) ∧
    (∀ h : pldm_hdr, h.inRange →
      h.pack = [ h.instance_id + 32 * h.rsvd + 64 * h.d + 128 * h.rq,
                 h.pldm_type + 64 * h.hdr_ver,
                 h.pldm_command_code ]) ∧
    (∀ h : pldm_hdr, h.inRange → pldm_hdr_unpack h.pack = some h) ∧
    (∀ b0 b1 b2 : Nat, b0 < 256 → b1 < 256 → b2 < 256 →
      ∃ h : pldm_hdr, pldm_hdr_unpack [b0, b1, b2] = some h ∧ h.inRange ∧
        h.pack = [b0, b1, b2]) := by
  refine ⟨by decide, by decide, by decide, by decide, by decide, by decide,
    fun _ => rfl, pldm_hdr_pack_of_inRange, ?_, ?_⟩
  · intro h hr
    have := pldm_hdr_unpack_pack h hr []
    simpa using this
  · intro b0 b1 b2 h0 h1 h2
    exact pldm_hdr_pack_unpack b0 b1 b2 [] h0 h1 h2

/-- C7 at the header of a GetSensorReading request with instance id 5:
its bytes are 0x85, 0x02, 0x11, and they unpack to it. -/
theorem pldm_hdr_bit_packing_witness :
    (pldm_hdr.mk 5 0 0 1 2 0 0x11).inRange ∧
    (pldm_hdr.mk 5 0 0 1 2 0 0x11).pack = [0x85, 0x02, 0x11] ∧
    pldm_hdr_unpack [0x85, 0x02, 0x11] = some (pldm_hdr.mk 5 0 0 1 2 0 0x11) :=
  have hr : (pldm_hdr.mk 5 0 0 1 2 0 0x11).inRange := by
    simp only [pldm_hdr.inRange]
    decide
  ⟨hr, pldm_hdr_bit_packing.2.2.2.2.2.2.2.1 _ hr,
    pldm_hdr_bit_packing.2.2.2.2.2.2.2.2.1 _ hr⟩

/-! ## Sensor data sizes: theorems -/

open pldm_data_size in
/-- The values of the sensor data size enumerators. -/
theorem pldm_data_size_values :
    enumEval pldm_data_size_body =
      [ (PLDM_DATA_SIZE_UINT8, 0), (PLDM_DATA_SIZE_SINT8, 1), (PLDM_DATA_SIZE_UINT16, 2),
        (PLDM_DATA_SIZE_SINT16, 3), (PLDM_DATA_SIZE_UINT32, 4), (PLDM_DATA_SIZE_SINT32, 5) ] := by
  decide

/-- A tag outside 0..5 names no sensor data size. -/
theorem pldm_data_size_of_unknown (tag : Int) (h : tag < 0 ∨ 5 < tag) :
    pldm_data_size_of tag = none := by
  have h0 : ¬ (0 : Int) = tag := by omega
  have h1 : ¬ (1 : Int) = tag := by omega
  have h2 : ¬ (2 : Int) = tag := by omega
  have h3 : ¬ (3 : Int) = tag := by omega
  have h4 : ¬ (4 : Int) = tag := by omega
  have h5 : ¬ (5 : Int) = tag := by omega
  simp [pldm_data_size_of, enumNamesOf, pldm_data_size_values, List.filter, h0, h1, h2, h3, h4, h5]

/-- A tag that is the value of an enumerator names that enumerator. -/
theorem pldm_data_size_of_code (t : pldm_data_size) : pldm_data_size_of t.code = some t := by
  cases t <;> decide

/-- The type each sensor data size names. -/
theorem pldm_data_size_ctype (t : pldm_data_size) :
    t.ctype = match t with
      | pldm_data_size.PLDM_DATA_SIZE_UINT8 => CTy.u8
      | pldm_data_size.PLDM_DATA_SIZE_SINT8 => CTy.s8
      | pldm_data_size.PLDM_DATA_SIZE_UINT16 => CTy.u16
      | pldm_data_size.PLDM_DATA_SIZE_SINT16 => CTy.s16
      | pldm_data_size.PLDM_DATA_SIZE_UINT32 => CTy.u32
      | pldm_data_size.PLDM_DATA_SIZE_SINT32 => CTy.s32 := by
  cases t <;> rfl

/-- An integer read from `w` bytes is below `256 ^ w`. -/
theorem readLE_lt (w : Nat) (bytes : List Nat) : readLE w bytes < 256 ^ w := by
  induction w generalizing bytes with
  | zero => simp [readLE]
  | succ n ih =>
    have h1 := ih bytes.tail
    have h2 : bytes.headD 0 % 256 < 256 := Nat.mod_lt _ (by decide)
    simp only [readLE, pow_succ]
    omega

/-- An integer read from `w` bytes depends on the first `w` bytes only. -/
theorem readLE_take (w : Nat) (bytes : List Nat) : readLE w (bytes.take w) = readLE w bytes := by
  induction w generalizing bytes with
  | zero => simp [readLE]
  | succ n ih =>
    cases bytes with
    | nil => simp
    | cons b rest => simp [readLE, ih rest]

/-- Two byte strings that agree on their first `w` bytes hold the same integer. -/
theorem readLE_congr (w : Nat) (a b : List Nat) (h : a.take w = b.take w) :
    readLE w a = readLE w b := by
  rw [← readLE_take w a, ← readLE_take w b, h]

/-- The value read through the member a sensor data size names is within
the range of the member's type. -/
theorem pldm_data_size_load_range (t : pldm_data_size) (bytes : List Nat) :
    t.ctype.minVal ≤ t.ctype.load bytes ∧ t.ctype.load bytes ≤ t.ctype.maxVal := by
  have h1 := readLE_lt 1 bytes
  have h2 := readLE_lt 2 bytes
  have h4 := readLE_lt 4 bytes
  rw [pldm_data_size_ctype]
  cases t <;>
    simp only [CTy.load, CTy.minVal, CTy.maxVal, CTy.isSigned, CTy.size] <;>
    norm_num at h1 h2 h4 ⊢ <;>
    (try split_ifs) <;>
    omega

/-- The value read through the member a sensor data size names depends
on the first bytes of the storage only, as many as the member is wide. -/
theorem pldm_data_size_load_congr (t : pldm_data_size) (a b : List Nat)
    (h : a.take t.width = b.take t.width) : t.ctype.load a = t.ctype.load b := by
  have hr : readLE t.ctype.size a = readLE t.ctype.size b := readLE_congr _ a b h
  simp only [CTy.load, hr]

/-! ## Numeric sensor PDR tails, sensor readings and GetPDR: theorems -/

open pldm_data_size in
/-- C8: the sensor data size tags are UInt8 = 0, SInt8 = 1, UInt16 = 2,
SInt16 = 3, UInt32 = 4, SInt32 = 5; tags 0 and 1 select the 8-bit tail, 2
and 3 the 16-bit tail, 4 and 5 the 32-bit tail, every other tag none; the
width of a tag is 2 ^ (tag / 2) bytes and it is signed exactly when odd.
Every tail has the same 18 members in the same order from hysteresis to
fatal_low, none a bit-field; its 12 reading members have the width of the
tag, its 6 other members are the same in all tails and take 12 bytes, so
a tail is 12 + 12 * w bytes: 24, 36 and 60. The tails are the last member
of the PDR struct. -/
theorem numeric_sensor_tail_shape_selection :
    enumEval pldm_data_size_body =
      [ (PLDM_DATA_SIZE_UINT8, 0), (PLDM_DATA_SIZE_SINT8, 1), (PLDM_DATA_SIZE_UINT16, 2),
        (PLDM_DATA_SIZE_SINT16, 3), (PLDM_DATA_SIZE_UINT32, 4),
        (PLDM_DATA_SIZE_SINT32, 5) ] ∧
    numeric_sensor_ssd_select 0 = some numeric_sensor_ssd8_members ∧
    numeric_sensor_ssd_select 1 = some numeric_sensor_ssd8_members ∧
    numeric_sensor_ssd_select 2 = some numeric_sensor_ssd16_members ∧
    numeric_sensor_ssd_select 3 = some numeric_sensor_ssd16_members ∧
    numeric_sensor_ssd_select 4 = some numeric_sensor_ssd32_members ∧
    numeric_sensor_ssd_select 5 = some numeric_sensor_ssd32_members ∧
    (∀ tag : Int, (tag < 0 ∨ 5 < tag) → numeric_sensor_ssd_select tag = none) ∧
    (∀ t : pldm_data_size, t.width = 2 ^ (t.code.toNat / 2) ∧
      (t.ctype.isSigned = true ↔ t.code % 2 = 1)) ∧
    (∀ t : pldm_data_size, ∃ shape : List Member,
      numeric_sensor_ssd_select t.code = some shape ∧
      shape.length = 18 ∧
      shape.map Member.name =
        [ "hysteresis", "supported_thresholds", "threshold_and_hysteresis_volatility",
          "state_transition_interval", "update_interval", "max_readable", "min_readable",
          "range_field_format", "range_field_support", "nominal_value", "normal_max",
          "normal_min", "warning_high", "warning_low", "critical_high", "critical_low",
          "fatal_high", "fatal_low" ] ∧
      (∀ m ∈ shape, m.bits = none) ∧
      (ssdReadingMembers shape).map Member.name = ssd_reading_names ∧
      (ssdReadingMembers shape).length = 12 ∧
      (∀ m ∈ ssdReadingMembers shape, m.size = t.width) ∧
      ssdFixedMembers shape =
        [ fld "supported_thresholds" CTy.u8,
          fld "threshold_and_hysteresis_volatility" CTy.u8,
          fld "state_transition_interval" CTy.float,
          fld "update_interval" CTy.float,
          fld "range_field_format" CTy.u8,
          fld "range_field_support" CTy.u8 ] ∧
      sizeofPacked (ssdFixedMembers shape) = 12 ∧
      sizeofPacked shape = 12 + 12 * t.width) ∧
    sizeofPacked numeric_sensor_ssd8_members = 24 ∧
    sizeofPacked numeric_sensor_ssd16_members = 36 ∧
    sizeofPacked numeric_sensor_ssd32_members = 60 ∧
    (numeric_sensor_pdr_members.getLast?).map Member.name = some "ssd" ∧
    memberType numeric_sensor_pdr_members "sensor_data_size" = some CTy.u8 := by
  refine ⟨pldm_data_size_values, rfl, rfl, rfl, rfl, rfl, rfl, ?_, by decide, ?_,
    by decide, by decide, by decide, by decide, by decide⟩
  · intro tag h
    simp [numeric_sensor_ssd_select, pldm_data_size_of_unknown tag h]
  · intro t
    cases t <;>
      exact ⟨_, rfl, by decide, by decide, by decide, by decide, by decide, by decide,
        by decide, by decide, by decide⟩

/-- C8 at the tag byte 0xFF, which selects no tail. -/
theorem numeric_sensor_tail_shape_selection_witness :
    ((0xFF : Int) < 0 ∨ 5 < (0xFF : Int)) ∧ numeric_sensor_ssd_select 0xFF = none :=
  ⟨by decide, numeric_sensor_tail_shape_selection.2.2.2.2.2.2.2.1 0xFF (by decide)⟩

open pldm_data_size pldm_completion_code in
/-- C9: the present_reading of a GetSensorReading response is 4 bytes at
offset 10. For every sensor data size and every content of that storage,
the value read through the member the tag selects is within the range of
the tag's type (0..255, -128..127, 0..65535, -32768..32767,
0..4294967295, -2147483648..2147483647) and the same for every storage
that agrees on the first w bytes, w = 1, 2 or 4 being the width of the
type; a tag outside 0..5 selects no member and is rejected. With the tag
UInt16 and the bytes 0x34, 0x12 of 0x1234 the value is 4660, whatever the
other two bytes; the completion code Success is 0. -/
theorem present_reading_tag_driven_decode (t : pldm_data_size) (storage : List Nat) :
    offsetOf get_sensor_reading_rsp_members "present_reading" = some 10 ∧
    memberType get_sensor_reading_rsp_members "present_reading" = some (CTy.agg 4) ∧
    sizeofUnion sensor_value_members = 4 ∧
    (∃ v : Int, present_reading_decode t.code storage = Except.ok v ∧
      t.ctype.minVal ≤ v ∧ v ≤ t.ctype.maxVal ∧
      ∀ other : List Nat, other.take t.width = storage.take t.width →
        present_reading_decode t.code other = Except.ok v) ∧
    (t.ctype, t.width, t.ctype.minVal, t.ctype.maxVal) =
      (match t with
        | PLDM_DATA_SIZE_UINT8 => (CTy.u8, 1, 0, 255)
        | PLDM_DATA_SIZE_SINT8 => (CTy.s8, 1, -128, 127)
        | PLDM_DATA_SIZE_UINT16 => (CTy.u16, 2, 0, 65535)
        | PLDM_DATA_SIZE_SINT16 => (CTy.s16, 2, -32768, 32767)
        | PLDM_DATA_SIZE_UINT32 => (CTy.u32, 4, 0, 4294967295)
        | PLDM_DATA_SIZE_SINT32 => (CTy.s32, 4, -2147483648, 2147483647)) ∧
    (∀ tag : Int, (tag < 0 ∨ 5 < tag) →
      present_reading_decode tag storage = Except.error PldmDecodeError.UnknownSensorSize) ∧
    PLDM_DATA_SIZE_UINT16.code = 2 ∧
    (∀ b2 b3 : Nat, present_reading_decode 2 [0x34, 0x12, b2, b3] = Except.ok 4660) ∧
    enumValue pldm_completion_code_body PLDM_SUCCESS = 0 := by
  refine ⟨by decide, by decide, by decide, ?_, ?_, ?_, by decide, ?_, by decide⟩
  · refine ⟨t.ctype.load storage, ?_, (pldm_data_size_load_range t storage).1,
      (pldm_data_size_load_range t storage).2, ?_⟩
    · simp [present_reading_decode, pldm_data_size_of_code]
    · intro other h
      simp [present_reading_decode, pldm_data_size_of_code,
        pldm_data_size_load_congr t other storage h]
  · cases t <;> rfl
  · intro tag h
    simp [present_reading_decode, pldm_data_size_of_unknown tag h]
  · intro b2 b3
    rfl

/-- C9 at the tag SInt16 and the storage 0x34, 0x92, 0xFF, 0xFF: the value
is -28108, also when the last two bytes are zero. -/
theorem present_reading_tag_driven_decode_witness :
    present_reading_decode 3 [0x34, 0x92, 0xFF, 0xFF] = Except.ok (-28108) ∧
    present_reading_decode 3 [0x34, 0x92, 0, 0] = Except.ok (-28108) :=
  match (present_reading_tag_driven_decode pldm_data_size.PLDM_DATA_SIZE_SINT16
      [0x34, 0x92, 0xFF, 0xFF]).2.2.2.1 with
  | ⟨v, hv, _, _, hsame⟩ => by
    have hv2 : v = -28108 := by
      have h0 : present_reading_decode pldm_data_size.PLDM_DATA_SIZE_SINT16.code
          [0x34, 0x92, 0xFF, 0xFF] = Except.ok (-28108) := rfl
      rw [h0] at hv
      exact (Except.ok.inj hv).symm
    subst hv2
    exact ⟨hv, hsame [0x34, 0x92, 0, 0] (by decide)⟩

open pldm_transfer_op in
/-- C10: the packed GetPDR request is 16 bytes: the 3-byte header at
offset 0, record_handle (4 bytes) at 3, data_transfer_handle (4) at 7,
transfer_operation_flag (1) at 11, request_count (2) at 12 and
record_change_number (2) at 14, in this order, each member starting where
the one before it ends and the struct ending with the last member; the
transfer operation flag is 0 for the next part and 1 for the first. -/
theorem get_pdr_req_wire_layout :
    sizeofPacked get_pdr_req_members = 16 ∧
    get_pdr_req_members.map (fun m => (m.name, m.size)) =
      [ ("hdr", 3), ("record_handle", 4), ("data_transfer_handle", 4),
        ("transfer_operation_flag", 1), ("request_count", 2),
        ("record_change_number", 2) ] ∧
    (∀ m ∈ get_pdr_req_members, m.bits = none) ∧
    offsetOf get_pdr_req_members "hdr" = some 0 ∧
    offsetOf get_pdr_req_members "record_handle" = some 3 ∧
    offsetOf get_pdr_req_members "data_transfer_handle" = some 7 ∧
    offsetOf get_pdr_req_members "transfer_operation_flag" = some 11 ∧
    offsetOf get_pdr_req_members "request_count" = some 12 ∧
    offsetOf get_pdr_req_members "record_change_number" = some 14 ∧
    (get_pdr_req_members.map Member.size).sum = sizeofPacked get_pdr_req_members ∧
    sizeofPacked pldm_hdr_members = 3 ∧
    enumValue pldm_transfer_op_body PLDM_XFER_OP_GET_NEXT_PART = 0 ∧
    enumValue pldm_transfer_op_body PLDM_XFER_OP_GET_FIRST_PART = 1 := by
  refine ⟨?_, ?_, ?_, ?_, ?_, ?_, ?_, ?_, ?_, ?_, ?_, ?_, ?_⟩ <;> decide


/-! ## Firmware slots and board types: theorems -/

open fw_slot in
/-- The values of the firmware slot enumerators. -/
theorem fw_slot_values :
    FW_SLOT_0.code = 0 ∧ FW_SLOT_ACTIVE.code = 0 ∧ FW_SLOT_1.code = 1 ∧
    FW_SLOT_RECOVERY.code = 1 ∧ FW_SLOT_MAX.code = 2 := by
  refine ⟨?_, ?_, ?_, ?_, ?_⟩ <;> decide

open fw_slot in
/-- C11: a slot value is allowed exactly when it is Active (0) or
Recovery (1), which is exactly when it is below FW_SLOT_MAX = 2;
FW_SLOT_0 and FW_SLOT_ACTIVE are one value and so are FW_SLOT_1 and
FW_SLOT_RECOVERY; every value of the 8-bit slot member from 2 to 255 is
rejected. -/
theorem fw_slot_validity (s : Nat) :
    (fw_slot_allowed s = true ↔
      (s : Int) = FW_SLOT_ACTIVE.code ∨ (s : Int) = FW_SLOT_RECOVERY.code) ∧
    (fw_slot_allowed s = true ↔ s = 0 ∨ s = 1) ∧
    (fw_slot_allowed s = true ↔ (s : Int) < FW_SLOT_MAX.code) ∧
    FW_SLOT_ACTIVE.code = 0 ∧ FW_SLOT_RECOVERY.code = 1 ∧ FW_SLOT_MAX.code = 2 ∧
    FW_SLOT_0.code = FW_SLOT_ACTIVE.code ∧ FW_SLOT_1.code = FW_SLOT_RECOVERY.code ∧
    (2 ≤ s → s ≤ 255 → fw_slot_allowed s = false) ∧
    memberType cuc_firmware_update_start_req_members "slot" = some CTy.u8 := by
  obtain ⟨h0, ha, h1, hr, hm⟩ := fw_slot_values
  refine ⟨?_, ?_, ?_, ha, hr, hm, by rw [h0, ha], by rw [h1, hr], ?_, by decide⟩
  · simp [fw_slot_allowed]
  · simp only [fw_slot_allowed, ha, hr, Bool.or_eq_true, decide_eq_true_eq]
    omega
  · simp only [fw_slot_allowed, ha, hr, hm, Bool.or_eq_true, decide_eq_true_eq]
    omega
  · intro h2 _
    have : ¬ (fw_slot_allowed s = true) := by
      simp only [fw_slot_allowed, ha, hr, Bool.or_eq_true, decide_eq_true_eq]
      omega
    simpa using this

/-- C11 at the slot value 2, the first that is rejected. -/
theorem fw_slot_validity_witness :
    (2 ≤ 2 ∧ 2 ≤ 255) ∧ fw_slot_allowed 2 = false :=
  ⟨⟨by decide, by decide⟩, (fw_slot_validity 2).2.2.2.2.2.2.2.2.1 (by decide) (by decide)⟩

open cuc_board_type in
/-- The values of the board type enumerators. -/
theorem cuc_board_type_values :
    CUC_BOARD_TYPE_UNKNOWN.code = -1 ∧ CUC_BOARD_TYPE_SAWTOOTH.code = 0 ∧
    CUC_BOARD_TYPE_BRAZOS.code = 1 ∧ CUC_BOARD_TYPE_WASHINGTON.code = 2 ∧
    CUC_BOARD_TYPE_KENNEBEC.code = 3 ∧ CUC_BOARD_TYPE_PANGANI.code = 4 ∧
    CUC_BOARD_TYPE_SOUHEGAN.code = 5 := by
  refine ⟨?_, ?_, ?_, ?_, ?_, ?_, ?_⟩ <;> decide

open cuc_board_type in
/-- C12: for every integer board type the two macros are never both
true; the board types 0 and 1 (Sawtooth, Brazos) are CAS1 and not CAS2,
the board types 2, 3, 4, 5 (Washington, Kennebec, Pangani, Souhegan) are
CAS2 and not CAS1; CUC_BOARD_TYPE_UNKNOWN = -1 and every value outside
0..5 is neither. -/
theorem board_type_generation (bt : Int) :
    ¬ (is_cas1_board_type bt = true ∧ is_cas2_board_type bt = true) ∧
    (is_cas1_board_type bt = true ↔ bt = 0 ∨ bt = 1) ∧
    (is_cas2_board_type bt = true ↔ bt = 2 ∨ bt = 3 ∨ bt = 4 ∨ bt = 5) ∧
    ((0 ≤ bt ∧ bt ≤ 5) → (is_cas1_board_type bt = true ↔ is_cas2_board_type bt = false)) ∧
    ((bt < 0 ∨ 5 < bt) → is_cas1_board_type bt = false ∧ is_cas2_board_type bt = false) ∧
    (CUC_BOARD_TYPE_UNKNOWN.code = -1 ∧ CUC_BOARD_TYPE_SAWTOOTH.code = 0 ∧
      CUC_BOARD_TYPE_BRAZOS.code = 1 ∧ CUC_BOARD_TYPE_WASHINGTON.code = 2 ∧
      CUC_BOARD_TYPE_KENNEBEC.code = 3 ∧ CUC_BOARD_TYPE_PANGANI.code = 4 ∧
      CUC_BOARD_TYPE_SOUHEGAN.code = 5) ∧
    (∀ b : cuc_board_type,
      (is_cas1_board_type b.code, is_cas2_board_type b.code) =
        (match b with
          | CUC_BOARD_TYPE_UNKNOWN => (false, false)
          | CUC_BOARD_TYPE_SAWTOOTH => (true, false)
          | CUC_BOARD_TYPE_BRAZOS => (true, false)
          | CUC_BOARD_TYPE_WASHINGTON => (false, true)
          | CUC_BOARD_TYPE_KENNEBEC => (false, true)
          | CUC_BOARD_TYPE_PANGANI => (false, true)
          | CUC_BOARD_TYPE_SOUHEGAN => (false, true))) := by
  obtain ⟨_, hs, hb, hw, hk, hp, ho⟩ := cuc_board_type_values
  have h1 : is_cas1_board_type bt = true ↔ bt = 0 ∨ bt = 1 := by
    simp only [is_cas1_board_type, hs, hb, Bool.or_eq_true, decide_eq_true_eq]
  have h2 : is_cas2_board_type bt = true ↔ bt = 2 ∨ bt = 3 ∨ bt = 4 ∨ bt = 5 := by
    simp only [is_cas2_board_type, hw, hk, hp, ho, Bool.or_eq_true, decide_eq_true_eq]
    omega
  have n1 : is_cas1_board_type bt = false ↔ ¬ (bt = 0 ∨ bt = 1) := by
    rw [← h1]; simp
  have n2 : is_cas2_board_type bt = false ↔ ¬ (bt = 2 ∨ bt = 3 ∨ bt = 4 ∨ bt = 5) := by
    rw [← h2]; simp
  refine ⟨?_, h1, h2, ?_, ?_, cuc_board_type_values, by decide⟩
  · rw [h1, h2]; omega
  · rw [h1, n2]; omega
  · rw [n1, n2]; omega

/-- C12 at the board type 6, the first beyond Souhegan: it is neither. -/
theorem board_type_generation_witness :
    ((6 : Int) < 0 ∨ (5 : Int) < 6) ∧
    is_cas1_board_type 6 = false ∧ is_cas2_board_type 6 = false :=
  ⟨by decide, (board_type_generation 6).2.2.2.2.1 (by decide)⟩


/-! ## ATT1 interrupt masks: theorems -/

/-- The host-cleared interrupts, whatever the width of the complement
from 32 bits on. -/
theorem host_cleared_att1_value (w : Nat) (hw : 32 ≤ w) :
    HOST_CLEARED_ATT1_INTERRUPTS w = 0xFFF7FFFF := by
  obtain ⟨k, rfl⟩ := Nat.exists_eq_add_of_le hw
  have hpos : 0 < 2 ^ k := Nat.two_pow_pos k
  have hq : ATT1_QSFP_INT = 524288 := by decide
  have hall : ATT1_ALL_INTERRUPTS = 2 ^ 32 - 1 := by decide
  have hsplit : 2 ^ (32 + k) = 4294967296 * 2 ^ k := by rw [pow_add]; norm_num
  have hmod : 524288 % 2 ^ (32 + k) = 524288 := Nat.mod_eq_of_lt (by rw [hsplit]; omega)
  simp only [HOST_CLEARED_ATT1_INTERRUPTS, bitNot, hq, hall, hmod]
  rw [Nat.and_comm, Nat.and_pow_two_sub_one_eq_mod, hsplit]
  generalize 2 ^ k = y at hpos
  omega

/-- The bits of the host-cleared interrupts: the lowest 32 without bit 19. -/
theorem host_cleared_testBit (i : Nat) :
    (0xFFF7FFFF : Nat).testBit i = (decide (i < 32) && decide (i ≠ 19)) := by
  by_cases h : i < 32
  · interval_cases i <;> decide
  · have hlt : (0xFFF7FFFF : Nat) < 2 ^ i :=
      Nat.lt_of_lt_of_le (by decide : (0xFFF7FFFF : Nat) < 2 ^ 32)
        (Nat.pow_le_pow_right (by decide) (Nat.le_of_not_lt h))
    simp [Nat.testBit_lt_two_pow hlt, h]


/-- C13: every defined ATT1 mask is one bit: those of the uC and the
board are bits 0, 1, 2 within 0..7, those of the ASIC bits 8, 9, 10
within 8..15, those of the QSFP bits 16..21 within 16..23, and none has a
bit from 24 on; the twelve masks are pairwise distinct; the host-cleared
interrupts are 0xFFF7FFFF, so a 32-bit mask and-ed with them is the mask
without bit 19, and every defined mask but ATT1_QSFP_INT is kept by them
while ATT1_QSFP_INT is removed. -/
theorem att1_masks_and_host_cleared (w : Nat) (hw : 32 ≤ w) (m : Nat) (hm : m < 2 ^ 32) :
    att1_uc_masks.map (bitsSet 32) = [[0], [1], [2]] ∧
    att1_asic_masks.map (bitsSet 32) = [[8], [9], [10]] ∧
    att1_qsfp_masks.map (bitsSet 32) = [[16], [17], [18], [19], [20], [21]] ∧
    (∀ x ∈ att1_uc_masks, ∃ n < 8, x = 2 ^ n) ∧
    (∀ x ∈ att1_asic_masks, ∃ n < 16, 8 ≤ n ∧ x = 2 ^ n) ∧
    (∀ x ∈ att1_qsfp_masks, ∃ n < 24, 16 ≤ n ∧ x = 2 ^ n) ∧
    (∀ x ∈ att1_masks, x < 2 ^ 24) ∧
    att1_masks.length = 12 ∧ att1_masks.Nodup ∧
    bitsSet 32 ATT1_QSFP_INT = [19] ∧
    HOST_CLEARED_ATT1_INTERRUPTS w = 0xFFF7FFFF ∧
    (∀ i : Nat, (m &&& HOST_CLEARED_ATT1_INTERRUPTS w).testBit i =
      (m.testBit i && decide (i ≠ 19))) ∧
    (∀ x ∈ att1_masks, x ≠ ATT1_QSFP_INT → x &&& HOST_CLEARED_ATT1_INTERRUPTS w = x) ∧
    ATT1_QSFP_INT &&& HOST_CLEARED_ATT1_INTERRUPTS w = 0 := by
  rw [host_cleared_att1_value w hw]
  refine ⟨by decide, by decide, by decide, by decide, by decide, by decide, by decide,
    by decide, by decide, by decide, rfl, ?_, by decide, by decide⟩
  intro i
  rw [Nat.testBit_land, host_cleared_testBit]
  by_cases h : i < 32
  · simp [h]
  · have hlt : m < 2 ^ i :=
      Nat.lt_of_lt_of_le hm (Nat.pow_le_pow_right (by decide) (Nat.le_of_not_lt h))
    simp [Nat.testBit_lt_two_pow hlt]

/-- C13 with the complement taken in 64 bits, at the mask of all QSFP
interrupts, 0x3F0000: bit 19 is there and is gone after the and. -/
theorem att1_masks_and_host_cleared_witness :
    (32 ≤ 64 ∧ 0x3F0000 < 2 ^ 32) ∧
    HOST_CLEARED_ATT1_INTERRUPTS 64 = 0xFFF7FFFF ∧
    (0x3F0000 &&& HOST_CLEARED_ATT1_INTERRUPTS 64).testBit 19 =
      ((0x3F0000 : Nat).testBit 19 && decide (19 ≠ 19)) :=
  ⟨⟨by decide, by decide⟩,
    (att1_masks_and_host_cleared 64 (by decide) 0x3F0000 (by decide)).2.2.2.2.2.2.2.2.2.2.1,
    (att1_masks_and_host_cleared 64 (by decide) 0x3F0000 (by decide)).2.2.2.2.2.2.2.2.2.2.2.1 19⟩


/-! ## Firmware targets, payload sizes and thresholds: theorems -/

open casuc_fw_target in
/-- C14: neither target list has a duplicate, every listed target is
below FW_NUM_ENTRIES = 23 and so fits the 8-bit fw_target member; the
CAS1 list is the ten targets 0..9 below FW_TDA38740_WAS = 10; the lists
have exactly the seven targets 0..6, FW_UC_APPLICATION to FW_SRDS, in
common; the CAS2 list has none of 7, 8, 9 and not FW_RESERVED = 16; the
union of the lists is every value of 0..22 but FW_RESERVED. -/
theorem fw_target_lists_consistent :
    CAS1_BLOB_FW_TARGETS.Nodup ∧ CAS2_BLOB_FW_TARGETS.Nodup ∧
    (fwTargetCodes CAS1_BLOB_FW_TARGETS).Nodup ∧
    (fwTargetCodes CAS2_BLOB_FW_TARGETS).Nodup ∧
    FW_NUM_ENTRIES.code = 23 ∧
    (∀ t ∈ CAS1_BLOB_FW_TARGETS ++ CAS2_BLOB_FW_TARGETS,
      0 ≤ t.code ∧ t.code < FW_NUM_ENTRIES.code ∧ t.code < 2 ^ 8) ∧
    memberType cuc_get_firmware_version_req_members "fw_target" = some CTy.u8 ∧
    FW_TDA38740_WAS.code = 10 ∧
    fwTargetCodes CAS1_BLOB_FW_TARGETS = [0, 1, 2, 3, 4, 5, 6, 7, 8, 9] ∧
    (∀ t : casuc_fw_target,
      t.code ∈ fwTargetCodes CAS1_BLOB_FW_TARGETS ↔ t.code < FW_TDA38740_WAS.code) ∧
    CAS1_BLOB_FW_TARGETS.filter (fun t => decide (t ∈ CAS2_BLOB_FW_TARGETS)) =
      [FW_UC_APPLICATION, FW_UC_BOOTLOADER, FW_QSPI_BLOB, FW_OPROM, FW_CSR1, FW_CSR2,
        FW_SRDS] ∧
    (fwTargetCodes CAS1_BLOB_FW_TARGETS).filter
        (fun v => decide (v ∈ fwTargetCodes CAS2_BLOB_FW_TARGETS)) =
      [0, 1, 2, 3, 4, 5, 6] ∧
    (FW_ISL68124_SAW.code = 7 ∧ FW_ISL68124_BRZ.code = 8 ∧ FW_IR38060_QSFP_BRZ.code = 9 ∧
      FW_IR38060.code = 9 ∧ FW_RESERVED.code = 16) ∧
    (∀ v ∈ [(7 : Int), 8, 9, 16], v ∉ fwTargetCodes CAS2_BLOB_FW_TARGETS) ∧
    (∀ n ∈ List.range 23,
      ((n : Int) ∈ fwTargetCodes (CAS1_BLOB_FW_TARGETS ++ CAS2_BLOB_FW_TARGETS) ↔
        (n : Int) ≠ FW_RESERVED.code)) ∧
    (∀ v ∈ fwTargetCodes (CAS1_BLOB_FW_TARGETS ++ CAS2_BLOB_FW_TARGETS), 0 ≤ v ∧ v ≤ 22) := by
  refine ⟨?_, ?_, ?_, ?_, ?_, ?_, ?_, ?_, ?_, ?_, ?_, ?_, ?_, ?_, ?_, ?_⟩ <;> decide

/-- C15: every payload struct of the uC commands and every struct of the
PLDM messages is at most CUC_DATA_BYTES = 253 bytes; the largest of the
former is the timings response, TIMING_NUM_ENTRIES * 8 = 16 * 8 = 128
bytes, the largest of the latter the numeric sensor PDR, 10 + 35 + 60 =
105 bytes; record_data follows 15 bytes of the GetPDR response, which
leaves 253 - 15 = 238 bytes of a packet for it, enough for a whole
numeric sensor PDR. -/
theorem fixed_payloads_fit_one_packet :
    CUC_DATA_BYTES = 253 ∧
    cuc_payload_structs.length = 21 ∧ pldm_structs.length = 13 ∧
    (∀ s ∈ cuc_payload_structs ++ pldm_structs, sizeofPacked s.2 ≤ CUC_DATA_BYTES) ∧
    TIMING_NUM_ENTRIES = 16 ∧
    sizeofPacked cuc_get_timings_rsp_members = TIMING_NUM_ENTRIES * 8 ∧
    sizeofPacked cuc_get_timings_rsp_members = 128 ∧
    (∀ s ∈ cuc_payload_structs, sizeofPacked s.2 ≤ sizeofPacked cuc_get_timings_rsp_members) ∧
    (∀ s ∈ pldm_structs, sizeofPacked s.2 ≤ sizeofPacked numeric_sensor_pdr_members) ∧
    structSizes pldm_pdr_structs = [("numeric_sensor_pdr", 105), ("aux_name_pdr", 85)] ∧
    sizeofPacked pdr_hdr_members = 10 ∧
    offsetOf numeric_sensor_pdr_members "ssd" = some (10 + 35) ∧
    sizeofUnion numeric_sensor_ssd_union = 60 ∧
    sizeofPacked numeric_sensor_pdr_members = 10 + 35 + 60 ∧
    offsetOf get_pdr_rsp_members "record_data" = some 15 ∧
    sizeofPacked get_pdr_rsp_members = 15 ∧
    CUC_DATA_BYTES - 15 = 238 ∧
    sizeofPacked numeric_sensor_pdr_members ≤ CUC_DATA_BYTES - 15 := by
  refine ⟨?_, ?_, ?_, ?_, ?_, ?_, ?_, ?_, ?_, ?_, ?_, ?_, ?_, ?_, ?_, ?_, ?_, ?_⟩ <;> decide

/-- C16: for each of the six thresholds of the list, its index is the
number the list gives it and its mask is 1 << index; the indices are
0..5, that is 0..PLDM_THRESHOLD_COUNT - 1 with PLDM_THRESHOLD_COUNT = 6;
the masks are pairwise disjoint, their bitwise or is 0x3F =
(1 << PLDM_THRESHOLD_COUNT) - 1, and each fits the 8-bit
supported_thresholds member of the three tails. -/
theorem pldm_threshold_masks_agree :
    PLDM_THRESHOLD_LIST Prod.mk =
      [ ("PLDM_THRESHOLD_UPPER_WARNING", 0), ("PLDM_THRESHOLD_UPPER_CRITICAL", 1),
        ("PLDM_THRESHOLD_UPPER_FATAL", 2), ("PLDM_THRESHOLD_LOWER_WARNING", 3),
        ("PLDM_THRESHOLD_LOWER_CRITICAL", 4), ("PLDM_THRESHOLD_LOWER_FATAL", 5) ] ∧
    (∀ e ∈ PLDM_THRESHOLD_LIST Prod.mk,
      pldm_threshold_index e.1 = e.2 ∧ pldm_threshold_mask e.1 = 1 <<< e.2) ∧
    (∀ name ∈ pldm_threshold_names,
      pldm_threshold_mask name = 1 <<< pldm_threshold_index name) ∧
    (enumEval pldm_threshold_mask_body).map Prod.fst =
      pldm_threshold_names.map (fun name => name ++ "_MASK") ∧
    PLDM_THRESHOLD_COUNT = 6 ∧
    pldm_threshold_names.map pldm_threshold_index = List.range PLDM_THRESHOLD_COUNT ∧
    (∀ a ∈ pldm_threshold_names, ∀ b ∈ pldm_threshold_names, a ≠ b →
      pldm_threshold_mask a &&& pldm_threshold_mask b = 0) ∧
    (pldm_threshold_names.map pldm_threshold_mask).foldl (fun x y => x ||| y) 0 = 0x3F ∧
    (0x3F : Nat) = (1 <<< PLDM_THRESHOLD_COUNT) - 1 ∧
    (∀ name ∈ pldm_threshold_names, pldm_threshold_mask name < 2 ^ 8) ∧
    memberType numeric_sensor_ssd8_members "supported_thresholds" = some CTy.u8 ∧
    memberType numeric_sensor_ssd16_members "supported_thresholds" = some CTy.u8 ∧
    memberType numeric_sensor_ssd32_members "supported_thresholds" = some CTy.u8 := by
  refine ⟨?_, ?_, ?_, ?_, ?_, ?_, ?_, ?_, ?_, ?_, ?_, ?_, ?_⟩ <;> decide

end Cassini
